import Mathlib

/-!
Verification of the token codec and key-resolution engine of
`rest_framework_sso/utils.py` (django-rest-framework-sso).

The Python code is shallowly embedded: claim payloads become ordered
association lists over a fixed claim-key vocabulary; the dynamically typed
claim values become the inductive `Value` type with Python truthiness made
explicit; exceptions become an `Except JwtError` result; the process-global
`api_settings` object becomes an explicit `ApiSettings` record; the
current wall-clock time and the key-storage / cryptography collaborators
become explicit parameters (`now : Int`, `Env`).  In-place mutation of the
payload dict by `encode_jwt_token` is modelled by returning the final
payload state alongside the produced token.
-/

set_option autoImplicit false

deriving instance DecidableEq for Except

namespace SSO

/-- The fixed claim-name vocabulary of the payload body.
Modelled from the spec: the `rest_framework_sso.claims` constants module is
not part of the provided source; the spec's §3 claim vocabulary is used,
with each constant an abstract enum tag rather than its wire string. -/
inductive ClaimKey where
  | token
  | sessionId
  | userId
  | email
  | scopes
  | issuer
  | audience
  | expirationTime
  | issuedAt
deriving DecidableEq, Repr

/-- Dynamically-typed claim values: Python `None`, strings, ints,
datetimes (as seconds-since-epoch integers) and lists of strings. -/
inductive Value where
  | none : Value
  | str (s : String) : Value
  | int (n : Int) : Value
  | time (t : Int) : Value
  | strList (l : List String) : Value
deriving DecidableEq, Repr

/-- Python truthiness of a claim value (`bool(v)`). -/
def Value.truthy : Value → Bool
  | .none => false
  | .str s => !(s == "")
  | .int n => !(n == 0)
  | .time _ => true
  | .strList l => !(l.isEmpty)

/-- Python `int(v)` as used by PyJWT on `exp` / `iat` claims:
succeeds on ints, datetimes and digit strings. -/
def Value.toIntOpt : Value → Option Int
  | .int n => some n
  | .time t => some t
  | .str s => s.toInt?
  | _ => Option.none

/-- Python `str(v)` / `six.text_type(v)`, abstractly: the textual rendering
used for the unverified issuer and key-id. -/
def Value.text : Value → String
  | .none => "None"
  | .str s => s
  | .int n => toString n
  | .time t => toString t
  | .strList l => String.intercalate ", " l

/-- A claim payload: Python's insertion-ordered `dict`, as an ordered
association list. -/
abbrev Payload := List (ClaimKey × Value)

/-- `k in payload` style lookup: first entry with the given key. -/
def pfind (p : Payload) (k : ClaimKey) : Option Value :=
  match p.find? (fun kv => kv.1 == k) with
  | some kv => some kv.2
  | _ => Option.none

/-- Python `payload.get(k)`: the value, or `None` when absent. -/
def pget (p : Payload) (k : ClaimKey) : Value :=
  match pfind p k with
  | some v => v
  | _ => Value.none

/-- Python `k in payload`. -/
def pmem (p : Payload) (k : ClaimKey) : Bool :=
  (pfind p k).isSome

/-- Python `payload[k] = v`: update in place when the key exists,
else append (insertion order preserved, as for a Python dict; payloads are
duplicate-free, so replacing the first occurrence is dict assignment). -/
def pset (p : Payload) (k : ClaimKey) (v : Value) : Payload :=
  match p with
  | [] => [(k, v)]
  | kv :: rest => if kv.1 == k then (k, v) :: rest else kv :: pset rest k v

/-- Python `del payload[k]` (used only to state "as if the claim were
absent" properties). -/
def perase (p : Payload) (k : ClaimKey) : Payload :=
  match p with
  | [] => []
  | kv :: rest => if kv.1 == k then perase rest k else kv :: perase rest k

/-- The two token-type claim values.
Modelled from the spec: the `claims` constants module (not in the provided
source) defines the SESSION token-type tag; the concrete wire string is
irrelevant to every property proved here, only its distinctness matters. -/
def TOKEN_SESSION : Value := .str "session"

/-- Modelled from the spec: the AUTHORIZATION token-type tag of the
`claims` constants module (see `TOKEN_SESSION`). -/
def TOKEN_AUTHORIZATION : Value := .str "authorization"

/-- An issuer's configured key reference(s) in `PRIVATE_KEYS` /
`PUBLIC_KEYS`: `get_key_file_name` accepts either a single string or a
list of strings. -/
inductive KeyRefs where
  | single (s : String) : KeyRefs
  | many (l : List String) : KeyRefs
deriving DecidableEq, Repr

/-- The `isinstance(issuer_keys, str)` normalisation: a single string
becomes a one-element list. -/
def KeyRefs.toList : KeyRefs → List String
  | .single s => [s]
  | .many l => l

/-- Python truthiness of `keys.get(issuer)` (`None`, `''` and `[]` are
falsy). -/
def KeyRefs.truthy : KeyRefs → Bool
  | .single s => !(s == "")
  | .many l => !(l.isEmpty)

/-- The process-lifetime `api_settings` configuration object, made an
explicit value. -/
structure ApiSettings where
  IDENTITY : Option String
  SESSION_AUDIENCE : Option Value
  AUTHORIZATION_AUDIENCE : Option Value
  SESSION_EXPIRATION : Option Int
  AUTHORIZATION_EXPIRATION : Option Int
  ACCEPTED_ISSUERS : Option (List String)
  PRIVATE_KEYS : List (String × KeyRefs)
  PUBLIC_KEYS : List (String × KeyRefs)
  ENCODE_ALGORITHM : String
  DECODE_ALGORITHMS : Option (List String)
  VERIFY_SIGNATURE : Bool
  VERIFY_EXPIRATION : Bool
  EXPIRATION_LEEWAY : Int
  VERIFY_SESSION_TOKEN : Bool
  KEY_STORE_ROOT : Option String

/-- Python `dict.get` on the issuer→keys mappings. -/
def dget (m : List (String × KeyRefs)) (k : String) : Option KeyRefs :=
  match m.find? (fun kv => kv.1 == k) with
  | some kv => some kv.2
  | _ => Option.none

/-- The external collaborators of the codec: the key-storage read
(`open(file_path).read()`, as a partial map from resolved path to key
bytes) and the asymmetric-crypto pairing (`pubOf priv` is the public key
material that verifies signatures produced with private key material
`priv`). -/
structure Env where
  files : String → Option String
  pubOf : String → String

/-- The exception surface of the engine, one constructor per Python
exception class raised or propagated by `utils.py`. -/
inductive JwtError where
  | runtimeError (msg : String) : JwtError
  | missingRequiredClaim (msg : String) : JwtError
  | invalidIssuer (msg : String) : JwtError
  | invalidToken (msg : String) : JwtError
  | invalidKey (msg : String) : JwtError
  | invalidAudience (msg : String) : JwtError
  | invalidAlgorithm (msg : String) : JwtError
  | expiredSignature (msg : String) : JwtError
  | decodeError (msg : String) : JwtError
  | ioError (msg : String) : JwtError
  | authenticationFailed (msg : String) : JwtError
deriving DecidableEq, Repr

/-- The encoded token wire value: metadata header (`kid`, signing
algorithm), claim body, and the signature modelled by the private key
material that produced it plus an intactness bit (`false` once the
signature segment is tampered with). -/
structure Token where
  header_kid : Value
  body : Payload
  sig_key : String
  sig_alg : String
  sig_intact : Bool
deriving DecidableEq, Repr

/-- `create_session_payload(session_token, user)` of `utils.py`. -/
def create_session_payload (session_pk : Value) (user_pk : Value)
    (user_email : String) : Payload :=
  [(.token, TOKEN_SESSION),
   (.sessionId, session_pk),
   (.userId, user_pk),
   (.email, .str user_email)]

/-- `create_authorization_payload(session_token, user)` of `utils.py`. -/
def create_authorization_payload (session_pk : Value) (user_pk : Value)
    (user_email : String) : Payload :=
  [(.token, TOKEN_AUTHORIZATION),
   (.sessionId, session_pk),
   (.userId, user_pk),
   (.email, .str user_email),
   (.scopes, .strList [])]

/-- `get_key_id(file_name)` of `utils.py`: strip a known filename suffix
(`file_name.lower().endswith('.pem')`, then `file_name[:-4]`) else return
the name verbatim.  Character-list primitives are used so that key-id
derivation is fully kernel-computable. -/
def get_key_id (file_name : String) : String :=
  if List.isSuffixOf ".pem".data (file_name.data.map Char.toLower) then
    String.mk (file_name.data.take (file_name.data.length - 4))
  else file_name

/-- `get_key_file_name(keys, issuer, key_id)` of `utils.py`. -/
def get_key_file_name (keys : List (String × KeyRefs)) (issuer : String)
    (key_id : Option String) : Except JwtError String :=
  match dget keys issuer with
  | Option.none => .error (.invalidKey "No keys defined for the given issuer")
  | some refs =>
    if !refs.truthy then
      .error (.invalidKey "No keys defined for the given issuer")
    else
      let issuer_keys := refs.toList
      let filtered :=
        match key_id with
        | some kid =>
          if !(kid == "") then
            issuer_keys.filter (fun ik => kid == ik || kid == get_key_id ik)
          else issuer_keys
        | _ => issuer_keys
      match filtered with
      | [] => .error (.invalidKey "No key matches the given key_id")
      | x :: _ => .ok x

/-- The path resolution of `read_key_file`: join with `KEY_STORE_ROOT`
when one is set, else use the reference as a direct path
(`os.path.abspath` normalisation is environment-dependent and left to the
storage collaborator). -/
def resolved_key_path (s : ApiSettings) (file_name : String) : String :=
  match s.KEY_STORE_ROOT with
  | some root => root ++ "/" ++ file_name
  | _ => file_name

/-- `read_key_file(file_name)` of `utils.py`: resolve the path, then read
via the storage collaborator (an unreadable file surfaces as an I/O
error). -/
def read_key_file (s : ApiSettings) (env : Env) (file_name : String) :
    Except JwtError String :=
  match env.files (resolved_key_path s file_name) with
  | some data => .ok data
  | _ => .error (.ioError "could not read key file")

/-- `get_private_key_and_key_id(issuer, key_id)` of `utils.py`
(`load_pem_private_key` is the identity on the abstract key material). -/
def get_private_key_and_key_id (s : ApiSettings) (env : Env)
    (issuer : String) (key_id : Option String) :
    Except JwtError (String × String) :=
  match get_key_file_name s.PRIVATE_KEYS issuer key_id with
  | .error e => .error e
  | .ok file_name =>
    match read_key_file s env file_name with
    | .error e => .error e
    | .ok file_data => .ok (file_data, get_key_id file_name)

/-- `get_public_key_and_key_id(issuer, key_id)` of `utils.py`. -/
def get_public_key_and_key_id (s : ApiSettings) (env : Env)
    (issuer : String) (key_id : Option String) :
    Except JwtError (String × String) :=
  match get_key_file_name s.PUBLIC_KEYS issuer key_id with
  | .error e => .error e
  | .ok file_name =>
    match read_key_file s env file_name with
    | .error e => .error e
    | .ok file_data => .ok (file_data, get_key_id file_name)

/-- Lines 46-50 of `encode_jwt_token`: default an absent (falsy) issuer to
the configured self-identity, or fail. -/
def default_issuer (s : ApiSettings) (p : Payload) : Except JwtError Payload :=
  if (pget p .issuer).truthy then .ok p
  else
    match s.IDENTITY with
    | some i => .ok (pset p .issuer (.str i))
    | _ => .error (.runtimeError "IDENTITY must be specified in settings")

/-- Lines 52-60 of `encode_jwt_token`: default an absent (falsy) audience
by token type, falling back to `[IDENTITY]`, or fail.  The `elif` chain
`payload.get(TOKEN) == X and api_settings.Y is not None` is rendered as a
guarded option. -/
def default_audience (s : ApiSettings) (p : Payload) : Except JwtError Payload :=
  if (pget p .audience).truthy then .ok p
  else
    match (if pget p .token == TOKEN_SESSION then s.SESSION_AUDIENCE
           else Option.none) with
    | some a => .ok (pset p .audience a)
    | _ =>
      match (if pget p .token == TOKEN_AUTHORIZATION then
               s.AUTHORIZATION_AUDIENCE
             else Option.none) with
      | some a => .ok (pset p .audience a)
      | _ =>
        match s.IDENTITY with
        | some i => .ok (pset p .audience (.strList [i]))
        | _ => .error (.runtimeError "SESSION_AUDIENCE must be specified in settings")

/-- Lines 62-66 of `encode_jwt_token`: default an absent (falsy)
expiration time to `utcnow() + TTL` when a TTL is configured for the token
type; a never-failing step. -/
def default_expiration (s : ApiSettings) (now : Int) (p : Payload) : Payload :=
  if (pget p .expirationTime).truthy then p
  else
    match (if pget p .token == TOKEN_SESSION then s.SESSION_EXPIRATION
           else Option.none) with
    | some d => pset p .expirationTime (.time (now + d))
    | _ =>
      match (if pget p .token == TOKEN_AUTHORIZATION then
               s.AUTHORIZATION_EXPIRATION
             else Option.none) with
      | some d => pset p .expirationTime (.time (now + d))
      | _ => p

/-- Lines 68-69 of `encode_jwt_token`: default an absent (falsy)
issued-at to `utcnow()`. -/
def default_issued_at (now : Int) (p : Payload) : Payload :=
  if (pget p .issuedAt).truthy then p else pset p .issuedAt (.time now)

/-- `encode_jwt_token(payload)` of `utils.py`.  Mutation of the caller's
payload dict is modelled by returning the final payload state alongside
the emitted token; `jwt.encode` (external) emits a token whose header
carries the resolved key id, whose body is the final payload, and whose
signature segment is the configured algorithm applied with the resolved
private key material. -/
def encode_jwt_token (s : ApiSettings) (env : Env) (now : Int)
    (payload : Payload) : Except JwtError (Token × Payload) :=
  if !(pget payload .token == TOKEN_SESSION
       || pget payload .token == TOKEN_AUTHORIZATION) then
    .error (.runtimeError "Unknown token type")
  else
    match default_issuer s payload with
    | .error e => .error e
    | .ok p1 =>
      match default_audience s p1 with
      | .error e => .error e
      | .ok p2 =>
        let p3 := default_expiration s now p2
        let p4 := default_issued_at now p3
        match pget p4 .issuer with
        | .str i =>
          if (dget s.PRIVATE_KEYS i).isSome then
            match get_private_key_and_key_id s env i Option.none with
            | .error e => .error e
            | .ok pk =>
              .ok ({ header_kid := .str pk.2, body := p4, sig_key := pk.1,
                     sig_alg := s.ENCODE_ALGORITHM, sig_intact := true }, p4)
          else
            .error (.runtimeError "Private key for specified issuer was not found in settings")
        | _ =>
          .error (.runtimeError "Private key for specified issuer was not found in settings")

/-- Lines 93-96 of `decode_jwt_token`: the unverified key id from the
token metadata header (`None` when absent or falsy, else its text). -/
def unverified_key_id (tok : Token) : Option String :=
  if tok.header_kid.truthy then some tok.header_kid.text else Option.none

/-- Lines 98-104 of `decode_jwt_token` (Phase 1, unverified peek): the
issuer claim must be present (no trust, no default), and when an
accepted-issuer allow-list is configured the unverified issuer must be a
member.  Returns the unverified issuer text. -/
def decode_peek (s : ApiSettings) (tok : Token) : Except JwtError String :=
  if !(pmem tok.body .issuer) then
    .error (.missingRequiredClaim "iss")
  else
    let unverified_issuer := (pget tok.body .issuer).text
    match s.ACCEPTED_ISSUERS with
    | some accepted =>
      if !(accepted.contains unverified_issuer) then
        .error (.invalidIssuer "Invalid issuer")
      else .ok unverified_issuer
    | _ => .ok unverified_issuer

/-- `api_settings.DECODE_ALGORITHMS or [api_settings.ENCODE_ALGORITHM]`
(Python `or`: an empty or unset list falls back). -/
def decode_algorithms (s : ApiSettings) : List String :=
  match s.DECODE_ALGORITHMS with
  | some l => if l.isEmpty then [s.ENCODE_ALGORITHM] else l
  | _ => [s.ENCODE_ALGORITHM]

/-- The PyJWT collaborator's issued-at validation: `iat`, when present,
must cast to an integer. -/
def validate_iat (p : Payload) : Except JwtError Unit :=
  match pfind p .issuedAt with
  | some v =>
    match v.toIntOpt with
    | some _ => .ok ()
    | _ => .error (.decodeError "Issued At claim (iat) must be an integer.")
  | _ => .ok ()

/-- The PyJWT collaborator's expiration validation, gated by the
`verify_exp` option (`VERIFY_EXPIRATION`): an `exp` claim present and
older than `now - leeway` rejects the token. -/
def validate_exp (s : ApiSettings) (now : Int) (p : Payload) :
    Except JwtError Unit :=
  if s.VERIFY_EXPIRATION then
    match pfind p .expirationTime with
    | some v =>
      match v.toIntOpt with
      | some e =>
        if e < now - s.EXPIRATION_LEEWAY then
          .error (.expiredSignature "Signature has expired")
        else .ok ()
      | _ => .error (.decodeError "Expiration Time claim (exp) must be an integer.")
    | _ => .ok ()
  else .ok ()

/-- The PyJWT collaborator's issuer validation against the expected
issuer (here always the Phase-1 unverified issuer text): the verified
`iss` claim must be present and equal it. -/
def validate_iss (issuer : String) (p : Payload) : Except JwtError Unit :=
  if !(pmem p .issuer) then .error (.missingRequiredClaim "iss")
  else if !(pget p .issuer == Value.str issuer) then
    .error (.invalidIssuer "Invalid issuer")
  else .ok ()

/-- The PyJWT collaborator's audience validation against the verifier's
configured identity (`audience=api_settings.IDENTITY`): a string `aud`
must equal it, a string-list `aud` must contain it; an `aud` claim with
no expected audience, or an expected audience with no `aud` claim, or a
non-string-shaped `aud`, rejects. -/
def validate_aud (audience : Option String) (p : Payload) :
    Except JwtError Unit :=
  match audience, pfind p .audience with
  | Option.none, Option.none => .ok ()
  | some _, Option.none => .error (.missingRequiredClaim "aud")
  | Option.none, some _ => .error (.invalidAudience "Invalid audience")
  | some a, some v =>
    match v with
    | .str x => if x == a then .ok () else .error (.invalidAudience "Invalid audience")
    | .strList l =>
      if l.contains a then .ok () else .error (.invalidAudience "Invalid audience")
    | _ => .error (.invalidAudience "Invalid claim format in token")

/-- Lines 108-123 of `decode_jwt_token` (Phase 2): the `jwt.decode`
collaborator call.  Modelled from the spec (§4.4 e): signature validity
is gated by `VERIFY_SIGNATURE` (intact signature made with the private
counterpart of the resolved public key, under an accepted algorithm),
expiration is gated by `VERIFY_EXPIRATION` with `EXPIRATION_LEEWAY`,
audience is matched against `IDENTITY`, and the verified issuer claim is
matched against the Phase-1 unverified issuer. -/
def jwt_decode_verified (s : ApiSettings) (env : Env) (now : Int)
    (tok : Token) (public_key : String) (issuer : String) :
    Except JwtError Payload :=
  match (if s.VERIFY_SIGNATURE then
           (if !((decode_algorithms s).contains tok.sig_alg) then
              .error (.invalidAlgorithm "The specified alg value is not allowed")
            else if !(tok.sig_intact && (env.pubOf tok.sig_key == public_key)) then
              .error (.decodeError "Signature verification failed")
            else .ok ())
         else (.ok () : Except JwtError Unit)) with
  | .error e => .error e
  | .ok _ =>
    match validate_iat tok.body with
    | .error e => .error e
    | .ok _ =>
      match validate_exp s now tok.body with
      | .error e => .error e
      | .ok _ =>
        match validate_iss issuer tok.body with
        | .error e => .error e
        | .ok _ =>
          match validate_aud s.IDENTITY tok.body with
          | .error e => .error e
          | .ok _ => .ok tok.body

/-- The settings' self-identity as the Python value compared against the
verified issuer claim on line 127 (`None` when unset). -/
def identityValue (s : ApiSettings) : Value :=
  match s.IDENTITY with
  | some i => .str i
  | _ => .none

/-- Lines 125-132 of `decode_jwt_token` (Phase 3, claim-consistency on
the trusted payload): known token type, cross-issuer policy (only
AUTHORIZATION tokens from a foreign issuer), and truthy session and user
ids. -/
def post_checks (s : ApiSettings) (payload : Payload) :
    Except JwtError Payload :=
  if !(pget payload .token == TOKEN_SESSION
       || pget payload .token == TOKEN_AUTHORIZATION) then
    .error (.invalidToken "Unknown token type")
  else if !(pget payload .issuer == identityValue s)
          && !(pget payload .token == TOKEN_AUTHORIZATION) then
    .error (.invalidToken "Only authorization tokens are accepted from other issuers")
  else if !(pget payload .sessionId).truthy then
    .error (.missingRequiredClaim "Session ID is missing.")
  else if !(pget payload .userId).truthy then
    .error (.missingRequiredClaim "User ID is missing.")
  else .ok payload

/-- Phases 1 and 2 of `decode_jwt_token`: unverified peek, verification
key resolution, and the verified `jwt.decode` call. -/
def decode_verified (s : ApiSettings) (env : Env) (now : Int)
    (tok : Token) : Except JwtError Payload :=
  match decode_peek s tok with
  | .error e => .error e
  | .ok unverified_issuer =>
    match get_public_key_and_key_id s env unverified_issuer
            (unverified_key_id tok) with
    | .error e => .error e
    | .ok pk => jwt_decode_verified s env now tok pk.1 unverified_issuer

/-- `decode_jwt_token(token)` of `utils.py`: the full two-phase decode
followed by the claim-consistency checks. -/
def decode_jwt_token (s : ApiSettings) (env : Env) (now : Int)
    (tok : Token) : Except JwtError Payload :=
  match decode_verified s env now tok with
  | .error e => .error e
  | .ok payload => post_checks s payload

/-- The observable stages of one `decode_jwt_token` run, for ordering
properties. -/
inductive DecodeEvent where
  | allowListChecked
  | keyResolved
  | signatureVerified
deriving DecidableEq, Repr

/-- The stages `decode_jwt_token` actually executes on a given input, in
execution order: the allow-list check of the peek (reached once the
unverified issuer claim exists), then verification-key resolution, then
the verified `jwt.decode` call. -/
def decode_jwt_trace (s : ApiSettings) (env : Env) (tok : Token) :
    List DecodeEvent :=
  if !(pmem tok.body .issuer) then []
  else
    match decode_peek s tok with
    | .error _ => [.allowListChecked]
    | .ok unverified_issuer =>
      match get_public_key_and_key_id s env unverified_issuer
              (unverified_key_id tok) with
      | .error _ => [.allowListChecked, .keyResolved]
      | .ok _ => [.allowListChecked, .keyResolved, .signatureVerified]

/-- A user record of the external user datastore (exposes a primary key
and the `is_active` flag). -/
structure User where
  pk : Value
  is_active : Bool
deriving DecidableEq, Repr

/-- A session record of the external session datastore, with its related
user. -/
structure SessionRec where
  pk : Value
  user : User
deriving DecidableEq, Repr

/-- The external datastore collaborator.
Modelled from the spec (§6): `active_sessions` is the result set of the
`SessionToken.objects.active()` manager (the `models` module is not in
the provided source), `users` the user model's table. -/
structure Db where
  active_sessions : List SessionRec
  users : List User
deriving DecidableEq, Repr

/-- The `SessionToken.objects.active().get(pk=.., user_id=..)` lookup:
the active session matching both identifiers (primary keys are unique). -/
def find_active_session (db : Db) (sid uid : Value) : Option SessionRec :=
  db.active_sessions.find? (fun st => st.pk == sid && st.user.pk == uid)

/-- The `user_model.objects.get(pk=..)` lookup. -/
def find_user (db : Db) (uid : Value) : Option User :=
  db.users.find? (fun u => u.pk == uid)

/-- `authenticate_payload(payload)` of `utils.py`: resolve the verified
payload to a user via the session store (when `VERIFY_SESSION_TOKEN`) or
the user store, then reject inactive users. -/
def authenticate_payload (s : ApiSettings) (db : Db) (payload : Payload) :
    Except JwtError User :=
  let looked_up : Except JwtError User :=
    if s.VERIFY_SESSION_TOKEN then
      match find_active_session db (pget payload .sessionId)
              (pget payload .userId) with
      | some st => .ok st.user
      | _ => .error (.authenticationFailed "Invalid token.")
    else
      match find_user db (pget payload .userId) with
      | some u => .ok u
      | _ => .error (.authenticationFailed "Invalid token.")
  match looked_up with
  | .error e => .error e
  | .ok user =>
    if !user.is_active then
      .error (.authenticationFailed "User inactive or deleted.")
    else .ok user

/-- The audience value `encode_jwt_token`'s defaulting chain resolves for
a given token type (mirrors the `elif` chain of lines 52-60): the per-type
configured audience, else `[IDENTITY]`, else nothing. -/
def audience_resolved (s : ApiSettings) (t : Value) : Option Value :=
  match (if t == TOKEN_SESSION then s.SESSION_AUDIENCE else Option.none) with
  | some a => some a
  | _ =>
    match (if t == TOKEN_AUTHORIZATION then s.AUTHORIZATION_AUDIENCE
           else Option.none) with
    | some a => some a
    | _ => s.IDENTITY.map (fun i => Value.strList [i])

/-- The expiration TTL `encode_jwt_token`'s defaulting chain applies for a
given token type (mirrors the `elif` chain of lines 62-66). -/
def expiration_ttl (s : ApiSettings) (t : Value) : Option Int :=
  match (if t == TOKEN_SESSION then s.SESSION_EXPIRATION else Option.none) with
  | some d => some d
  | _ =>
    if t == TOKEN_AUTHORIZATION then s.AUTHORIZATION_EXPIRATION
    else Option.none

/-- The same settings with both per-type expiration TTLs replaced (used to
state that encoding's error behaviour does not depend on the TTL
configuration). -/
def withTTLs (s : ApiSettings) (o : Option Int) : ApiSettings :=
  { s with SESSION_EXPIRATION := o, AUTHORIZATION_EXPIRATION := o }

/-- `get_key_file_name_per_spec`: the key-reference filter exactly as the
spec's words describe it, for comparison with `get_key_file_name` — a
candidate is kept only when its derived identifier (`get_key_id`) equals
the requested `key_id`. -/
def get_key_file_name_per_spec (keys : List (String × KeyRefs))
    (issuer : String) (key_id : Option String) : Except JwtError String :=
  match dget keys issuer with
  | Option.none => .error (.invalidKey "No keys defined for the given issuer")
  | some refs =>
    if !refs.truthy then
      .error (.invalidKey "No keys defined for the given issuer")
    else
      let issuer_keys := refs.toList
      let filtered :=
        match key_id with
        | some kid =>
          if !(kid == "") then
            issuer_keys.filter (fun ik => kid == get_key_id ik)
          else issuer_keys
        | _ => issuer_keys
      match filtered with
      | [] => .error (.invalidKey "No key matches the given key_id")
      | x :: _ => .ok x

/-- A concrete, consistently configured settings fixture for evaluating
the theorems on closed inputs: self-identity `"me"`, a session TTL of one
hour, an RS256 key pair for `"me"` plus a public key for the foreign
issuer `"other"`. -/
def fixSettings : ApiSettings :=
  { IDENTITY := some "me"
    SESSION_AUDIENCE := Option.none
    AUTHORIZATION_AUDIENCE := Option.none
    SESSION_EXPIRATION := some 3600
    AUTHORIZATION_EXPIRATION := Option.none
    ACCEPTED_ISSUERS := Option.none
    PRIVATE_KEYS := [("me", KeyRefs.single "me-key.pem")]
    PUBLIC_KEYS := [("me", KeyRefs.single "me-key"),
                    ("other", KeyRefs.single "other-key")]
    ENCODE_ALGORITHM := "RS256"
    DECODE_ALGORITHMS := Option.none
    VERIFY_SIGNATURE := true
    VERIFY_EXPIRATION := true
    EXPIRATION_LEEWAY := 0
    VERIFY_SESSION_TOKEN := true
    KEY_STORE_ROOT := Option.none }

/-- The storage and crypto collaborators matching `fixSettings`: the
private key file holds material `"PRIVKEY"` whose verifying counterpart
`"PUBKEY"` is what the `"me-key"` public reference resolves to. -/
def fixEnv : Env :=
  { files := fun f =>
      if f == "me-key.pem" then some "PRIVKEY"
      else if f == "me-key" then some "PUBKEY"
      else if f == "other-key" then some "OTHERPUB"
      else Option.none
    pubOf := fun k => if k == "PRIVKEY" then "PUBKEY" else "NO-MATCH" }

@[simp] theorem pfind_nil (k : ClaimKey) : pfind [] k = Option.none := rfl

@[simp] theorem pfind_cons (kv : ClaimKey × Value) (p : Payload) (k : ClaimKey) :
    pfind (kv :: p) k = if kv.1 == k then some kv.2 else pfind p k := by
  by_cases h : kv.1 == k <;> simp [pfind, List.find?, h]

theorem pfind_append (p q : Payload) (k : ClaimKey) :
    pfind (p ++ q) k = match pfind p k with
      | some v => some v
      | _ => pfind q k := by
  induction p with
  | nil => simp
  | cons kv p ih =>
    by_cases h : kv.1 == k <;> simp [h, ih]

theorem pfind_append_of_not_mem (p q : Payload) (k : ClaimKey)
    (h : pmem p k = false) : pfind (p ++ q) k = pfind q k := by
  rw [pfind_append]
  unfold pmem at h
  cases hf : pfind p k with
  | some v => rw [hf] at h; simp at h
  | none => simp

theorem pset_of_not_mem (p : Payload) (k : ClaimKey) (v : Value)
    (h : pmem p k = false) : pset p k v = p ++ [(k, v)] := by
  induction p with
  | nil => rfl
  | cons kv p ih =>
    unfold pmem at h
    rw [pfind_cons] at h
    by_cases hk : kv.1 == k
    · rw [if_pos hk] at h; simp at h
    · rw [if_neg hk] at h
      simp only [pset, if_neg hk, List.cons_append, List.cons.injEq, true_and]
      exact ih h

theorem pfind_pset_self (p : Payload) (k : ClaimKey) (v : Value) :
    pfind (pset p k v) k = some v := by
  induction p with
  | nil => simp [pset]
  | cons kv p ih =>
    by_cases hk : kv.1 == k
    · simp [pset, hk]
    · simp only [pset, if_neg hk]
      rw [pfind_cons, if_neg hk]
      exact ih

theorem pfind_pset_ne (p : Payload) (k k2 : ClaimKey) (v : Value)
    (h : ¬ k2 = k) : pfind (pset p k v) k2 = pfind p k2 := by
  induction p with
  | nil =>
    have : ¬ ((k, v).1 == k2) := by simpa using fun hc => h hc.symm
    simp [pset, this]
  | cons kv p ih =>
    by_cases hk : kv.1 == k
    · have hne : ¬ ((k, v).1 == k2) := by simpa using fun hc => h hc.symm
      have hne2 : ¬ (kv.1 == k2) := by
        simpa using fun hc => h (by rw [← hc, eq_of_beq hk])
      simp only [pset, if_pos hk]
      rw [pfind_cons, pfind_cons, if_neg hne, if_neg hne2]
    · simp only [pset, if_neg hk]
      rw [pfind_cons, pfind_cons]
      by_cases h2 : kv.1 == k2
      · rw [if_pos h2, if_pos h2]
      · rw [if_neg h2, if_neg h2]
        exact ih

theorem pget_pset_self (p : Payload) (k : ClaimKey) (v : Value) :
    pget (pset p k v) k = v := by
  simp [pget, pfind_pset_self]

theorem pget_pset_ne (p : Payload) (k k2 : ClaimKey) (v : Value)
    (h : ¬ k2 = k) : pget (pset p k v) k2 = pget p k2 := by
  simp [pget, pfind_pset_ne p k k2 v h]

theorem pmem_pset_self (p : Payload) (k : ClaimKey) (v : Value) :
    pmem (pset p k v) k = true := by
  simp [pmem, pfind_pset_self]

theorem pmem_pset_ne (p : Payload) (k k2 : ClaimKey) (v : Value)
    (h : ¬ k2 = k) : pmem (pset p k v) k2 = pmem p k2 := by
  simp [pmem, pfind_pset_ne p k k2 v h]

theorem pfind_perase_self (p : Payload) (k : ClaimKey) :
    pfind (perase p k) k = Option.none := by
  induction p with
  | nil => rfl
  | cons kv p ih =>
    by_cases h : kv.1 == k
    · simp only [perase, if_pos h]; exact ih
    · simp only [perase, if_neg h]
      rw [pfind_cons, if_neg h]
      exact ih

theorem pfind_perase_ne (p : Payload) (k k2 : ClaimKey) (h : ¬ k2 = k) :
    pfind (perase p k) k2 = pfind p k2 := by
  induction p with
  | nil => rfl
  | cons kv p ih =>
    by_cases hk : kv.1 == k
    · have hne : ¬ (kv.1 == k2) := by
        simpa using fun hc => h (by rw [← hc, eq_of_beq hk])
      simp only [perase, if_pos hk]
      rw [pfind_cons, if_neg hne]
      exact ih
    · simp only [perase, if_neg hk]
      rw [pfind_cons, pfind_cons]
      by_cases h2 : kv.1 == k2
      · rw [if_pos h2, if_pos h2]
      · rw [if_neg h2, if_neg h2]
        exact ih

theorem pget_perase_self (p : Payload) (k : ClaimKey) :
    pget (perase p k) k = Value.none := by
  simp [pget, pfind_perase_self]

theorem pget_perase_ne (p : Payload) (k k2 : ClaimKey) (h : ¬ k2 = k) :
    pget (perase p k) k2 = pget p k2 := by
  simp [pget, pfind_perase_ne p k k2 h]

/-- C1: every token that passes the verified decode with a SESSION
token-type claim and an issuer different from the verifier's configured
self-identity is rejected by `decode_jwt_token` with the cross-issuer
verification error — whatever the signature/expiration toggles and the
allow-list did earlier — while an AUTHORIZATION token from the same
foreign issuer is not rejected by this check (it is accepted once its
session and user ids are present). -/
theorem c1_session_foreign_issuer_rejected (s : ApiSettings) (env : Env)
    (now : Int) (tok : Token) (p : Payload)
    (h : decode_verified s env now tok = .ok p)
    (hiss : ¬ pget p .issuer = identityValue s) :
    (pget p .token = TOKEN_SESSION →
      decode_jwt_token s env now tok =
        .error (.invalidToken "Only authorization tokens are accepted from other issuers"))
    ∧ (pget p .token = TOKEN_AUTHORIZATION →
        (pget p .sessionId).truthy = true →
        (pget p .userId).truthy = true →
        decode_jwt_token s env now tok = .ok p) := by
  have hne : (pget p .issuer == identityValue s) = false :=
    beq_eq_false_iff_ne.mpr hiss
  constructor
  · intro ht
    simp only [decode_jwt_token, h, post_checks, ht]
    simp [hne, TOKEN_SESSION, TOKEN_AUTHORIZATION]
  · intro ht hsid huid
    simp only [decode_jwt_token, h, post_checks, ht]
    simp [hne, hsid, huid, TOKEN_SESSION, TOKEN_AUTHORIZATION]

/-- Closed evaluation of `c1_session_foreign_issuer_rejected`: a
concretely decoded SESSION token from issuer `"other"` against a verifier
whose identity is `"me"` is rejected with the cross-issuer error. -/
theorem c1_session_foreign_issuer_rejected_witness :
    decode_jwt_token
      { fixSettings with VERIFY_SIGNATURE := false, VERIFY_EXPIRATION := false }
      fixEnv 0
      { header_kid := .none,
        body := [(.token, TOKEN_SESSION), (.issuer, .str "other"),
                 (.audience, .str "me"), (.sessionId, .str "s1"),
                 (.userId, .str "u1")],
        sig_key := "X", sig_alg := "RS256", sig_intact := true } =
      .error (.invalidToken "Only authorization tokens are accepted from other issuers") :=
  (c1_session_foreign_issuer_rejected
    { fixSettings with VERIFY_SIGNATURE := false, VERIFY_EXPIRATION := false }
    fixEnv 0
    { header_kid := .none,
      body := [(.token, TOKEN_SESSION), (.issuer, .str "other"),
               (.audience, .str "me"), (.sessionId, .str "s1"),
               (.userId, .str "u1")],
      sig_key := "X", sig_alg := "RS256", sig_intact := true }
    [(.token, TOKEN_SESSION), (.issuer, .str "other"),
     (.audience, .str "me"), (.sessionId, .str "s1"), (.userId, .str "u1")]
    (by decide) (by decide)).1 (by decide)

/-- C2: when an accepted-issuer allow-list is configured and the token's
unverified issuer claim is not on it, `decode_jwt_token` rejects with the
invalid-issuer error — with no hypothesis on key configuration, signature
validity or expiration — and the run's stage trace stops at the allow-list
check: no verification key is resolved and no verified decode is
attempted. -/
theorem c2_allow_list_precedes_key_resolution (s : ApiSettings) (env : Env)
    (now : Int) (tok : Token) (accepted : List String)
    (hacc : s.ACCEPTED_ISSUERS = some accepted)
    (hmem : pmem tok.body .issuer = true)
    (hnot : accepted.contains (pget tok.body .issuer).text = false) :
    decode_jwt_token s env now tok = .error (.invalidIssuer "Invalid issuer")
    ∧ decode_jwt_trace s env tok = [.allowListChecked] := by
  have hpeek : decode_peek s tok = .error (.invalidIssuer "Invalid issuer") := by
    unfold decode_peek
    rw [hmem]
    simp only [hacc, Bool.not_true, Bool.false_eq_true, if_false]
    rw [hnot]
    simp
  refine ⟨?_, ?_⟩
  · simp [decode_jwt_token, decode_verified, hpeek]
  · simp [decode_jwt_trace, hmem, hpeek]

/-- Closed evaluation of `c2_allow_list_precedes_key_resolution`: with
allow-list `["me"]`, a token claiming issuer `"evil"` (an issuer with no
configured public key at all) is rejected with the invalid-issuer error
and the decode trace records only the allow-list check. -/
theorem c2_allow_list_precedes_key_resolution_witness :
    decode_jwt_token { fixSettings with ACCEPTED_ISSUERS := some ["me"] }
        fixEnv 0
        { header_kid := .none,
          body := [(.token, TOKEN_SESSION), (.issuer, .str "evil"),
                   (.sessionId, .str "s1"), (.userId, .str "u1")],
          sig_key := "X", sig_alg := "RS256", sig_intact := false } =
      .error (.invalidIssuer "Invalid issuer")
    ∧ decode_jwt_trace { fixSettings with ACCEPTED_ISSUERS := some ["me"] }
        fixEnv
        { header_kid := .none,
          body := [(.token, TOKEN_SESSION), (.issuer, .str "evil"),
                   (.sessionId, .str "s1"), (.userId, .str "u1")],
          sig_key := "X", sig_alg := "RS256", sig_intact := false } =
      [.allowListChecked] :=
  c2_allow_list_precedes_key_resolution
    { fixSettings with ACCEPTED_ISSUERS := some ["me"] } fixEnv 0
    { header_kid := .none,
      body := [(.token, TOKEN_SESSION), (.issuer, .str "evil"),
               (.sessionId, .str "s1"), (.userId, .str "u1")],
      sig_key := "X", sig_alg := "RS256", sig_intact := false }
    ["me"] (by decide) (by decide) (by decide)

/-- C9: after a successful verified decode, a `session_id` claim that is
present but falsy is rejected by `decode_jwt_token` with the
missing-session-id claim error (reached once the token-type and
cross-issuer checks pass), and the claim-consistency phase treats the
payload exactly as if the claim were absent; symmetrically for a falsy
`user_id` once `session_id` is truthy. -/
theorem c9_falsy_id_like_missing (s : ApiSettings) (env : Env) (now : Int)
    (tok : Token) (p : Payload)
    (h : decode_verified s env now tok = .ok p) :
    (∀ v, pfind p .sessionId = some v → v.truthy = false →
      post_checks s p = post_checks s (perase p .sessionId)
      ∧ ((pget p .token = TOKEN_SESSION ∨ pget p .token = TOKEN_AUTHORIZATION) →
         (pget p .issuer = identityValue s ∨ pget p .token = TOKEN_AUTHORIZATION) →
         decode_jwt_token s env now tok =
           .error (.missingRequiredClaim "Session ID is missing.")))
    ∧ (∀ v, (pget p .sessionId).truthy = true →
        pfind p .userId = some v → v.truthy = false →
        post_checks s p = post_checks s (perase p .userId)
        ∧ ((pget p .token = TOKEN_SESSION ∨ pget p .token = TOKEN_AUTHORIZATION) →
           (pget p .issuer = identityValue s ∨ pget p .token = TOKEN_AUTHORIZATION) →
           decode_jwt_token s env now tok =
             .error (.missingRequiredClaim "User ID is missing."))) := by
  constructor
  · intro v hfind hv
    have hsidv : pget p .sessionId = v := by simp [pget, hfind]
    have e1 : pget (perase p .sessionId) .token = pget p .token :=
      pget_perase_ne p .sessionId .token (by decide)
    have e2 : pget (perase p .sessionId) .issuer = pget p .issuer :=
      pget_perase_ne p .sessionId .issuer (by decide)
    have e3 : pget (perase p .sessionId) .sessionId = Value.none :=
      pget_perase_self p .sessionId
    constructor
    · unfold post_checks
      rw [e1, e2, e3, hsidv, hv]
      simp [Value.truthy]
    · intro ht hcross
      have hc1 : (!(pget p .token == TOKEN_SESSION
                    || pget p .token == TOKEN_AUTHORIZATION)) = false := by
        rcases ht with ht | ht <;> simp [ht]
      have hc2 : (!(pget p .issuer == identityValue s)
                  && !(pget p .token == TOKEN_AUTHORIZATION)) = false := by
        rcases hcross with hc | hc <;> simp [hc]
      simp only [decode_jwt_token, h, post_checks, hc1, hc2, hsidv, hv]
      simp
  · intro v hsid hfind hv
    have huidv : pget p .userId = v := by simp [pget, hfind]
    have e1 : pget (perase p .userId) .token = pget p .token :=
      pget_perase_ne p .userId .token (by decide)
    have e2 : pget (perase p .userId) .issuer = pget p .issuer :=
      pget_perase_ne p .userId .issuer (by decide)
    have e3 : pget (perase p .userId) .sessionId = pget p .sessionId :=
      pget_perase_ne p .userId .sessionId (by decide)
    have e4 : pget (perase p .userId) .userId = Value.none :=
      pget_perase_self p .userId
    constructor
    · unfold post_checks
      rw [e1, e2, e3, e4, huidv, hv, hsid]
      simp [Value.truthy]
    · intro ht hcross
      have hc1 : (!(pget p .token == TOKEN_SESSION
                    || pget p .token == TOKEN_AUTHORIZATION)) = false := by
        rcases ht with ht | ht <;> simp [ht]
      have hc2 : (!(pget p .issuer == identityValue s)
                  && !(pget p .token == TOKEN_AUTHORIZATION)) = false := by
        rcases hcross with hc | hc <;> simp [hc]
      simp only [decode_jwt_token, h, post_checks, hc1, hc2, huidv, hv, hsid]
      simp

/-- Closed evaluation of `c9_falsy_id_like_missing`: a verified SESSION
token of issuer `"me"` whose `session_id` claim is the empty string is
rejected with the missing-session-id error. -/
theorem c9_falsy_id_like_missing_witness :
    decode_jwt_token
      { fixSettings with VERIFY_SIGNATURE := false, VERIFY_EXPIRATION := false }
      fixEnv 0
      { header_kid := .none,
        body := [(.token, TOKEN_SESSION), (.issuer, .str "me"),
                 (.audience, .str "me"), (.sessionId, .str ""),
                 (.userId, .str "u1")],
        sig_key := "X", sig_alg := "RS256", sig_intact := true } =
      .error (.missingRequiredClaim "Session ID is missing.") :=
  (((c9_falsy_id_like_missing
      { fixSettings with VERIFY_SIGNATURE := false, VERIFY_EXPIRATION := false }
      fixEnv 0
      { header_kid := .none,
        body := [(.token, TOKEN_SESSION), (.issuer, .str "me"),
                 (.audience, .str "me"), (.sessionId, .str ""),
                 (.userId, .str "u1")],
        sig_key := "X", sig_alg := "RS256", sig_intact := true }
      [(.token, TOKEN_SESSION), (.issuer, .str "me"),
       (.audience, .str "me"), (.sessionId, .str ""), (.userId, .str "u1")]
      (by decide)).1 (Value.str "") (by decide) (by decide)).2
    (Or.inl (by decide)) (Or.inl (by decide)))

/-- C3 counterexample: with the single configured reference `"a.pem"` and
requested `key_id = "a.pem"`, the derived identifier is `"a"`, so the
claim's filter ("keep exactly the candidates whose derived identifier
equals key_id", rendered verbatim by `get_key_file_name_per_spec`) is
empty and would have to fail with the no-matching-key error — but
`get_key_file_name` also matches the verbatim reference and succeeds. -/
theorem c3_filter_counterexample :
    get_key_file_name [("i", KeyRefs.many ["a.pem"])] "i" (some "a.pem") =
      .ok "a.pem"
    ∧ get_key_id "a.pem" = "a"
    ∧ ¬ ("a" = "a.pem")
    ∧ get_key_file_name_per_spec [("i", KeyRefs.many ["a.pem"])] "i"
        (some "a.pem") =
      .error (.invalidKey "No key matches the given key_id") := by
  decide

/-- C3 amended: for a configured issuer with truthy key references and a
non-empty `key_id`, `get_key_file_name` keeps exactly the candidates whose
verbatim reference OR derived identifier equals `key_id`; it fails with
the no-matching-key error when that filtered set is empty, and otherwise
returns the first remaining candidate (which is one of the configured
references and matches by reference or derived identifier). -/
theorem c3_key_filter_ref_or_derived_id (keys : List (String × KeyRefs))
    (issuer : String) (kid : String) (refs : KeyRefs)
    (hrefs : dget keys issuer = some refs)
    (htruthy : refs.truthy = true)
    (hkid : ¬ kid = "") :
    (refs.toList.filter (fun ik => kid == ik || kid == get_key_id ik) = [] →
      get_key_file_name keys issuer (some kid) =
        .error (.invalidKey "No key matches the given key_id"))
    ∧ (∀ x rest,
        refs.toList.filter (fun ik => kid == ik || kid == get_key_id ik) =
          x :: rest →
        get_key_file_name keys issuer (some kid) = .ok x
        ∧ x ∈ refs.toList ∧ (kid = x ∨ kid = get_key_id x)) := by
  have hkid2 : (kid == "") = false := beq_eq_false_iff_ne.mpr hkid
  have hstep : get_key_file_name keys issuer (some kid) =
      (match refs.toList.filter (fun ik => kid == ik || kid == get_key_id ik) with
       | [] => (.error (.invalidKey "No key matches the given key_id") :
                 Except JwtError String)
       | x :: _ => .ok x) := by
    simp only [get_key_file_name, hrefs, htruthy, hkid2, Bool.not_true,
      Bool.not_false, Bool.false_eq_true, if_false, if_true]
  refine ⟨?_, ?_⟩
  · intro hnil
    rw [hstep, hnil]
  · intro x rest hcons
    have hx : x ∈ refs.toList.filter
        (fun ik => kid == ik || kid == get_key_id ik) := by
      rw [hcons]
      exact List.mem_cons_self x rest
    have hmemf := List.mem_filter.mp hx
    refine ⟨by rw [hstep, hcons], hmemf.1, ?_⟩
    rcases (Bool.or_eq_true _ _).mp hmemf.2 with hb | hb
    · exact Or.inl (eq_of_beq hb)
    · exact Or.inr (eq_of_beq hb)

/-- Closed evaluation of `c3_key_filter_ref_or_derived_id`: key rotation —
of the two references `"old.pem"`, `"new.pem"`, the requested key id
`"new"` selects `"new.pem"` through its derived identifier. -/
theorem c3_key_filter_ref_or_derived_id_witness :
    get_key_file_name [("i", KeyRefs.many ["old.pem", "new.pem"])] "i"
      (some "new") = .ok "new.pem" :=
  ((c3_key_filter_ref_or_derived_id
      [("i", KeyRefs.many ["old.pem", "new.pem"])] "i" "new"
      (KeyRefs.many ["old.pem", "new.pem"])
      (by decide) (by decide) (by decide)).2
    "new.pem" [] (by decide)).1

theorem pget_default_expiration_ne (s : ApiSettings) (now : Int)
    (p : Payload) (k : ClaimKey) (h : ¬ k = ClaimKey.expirationTime) :
    pget (default_expiration s now p) k = pget p k := by
  unfold default_expiration
  split
  · rfl
  · split
    · exact pget_pset_ne p .expirationTime k _ h
    · split
      · exact pget_pset_ne p .expirationTime k _ h
      · rfl

theorem pget_default_issued_at_ne (now : Int) (p : Payload) (k : ClaimKey)
    (h : ¬ k = ClaimKey.issuedAt) :
    pget (default_issued_at now p) k = pget p k := by
  unfold default_issued_at
  split
  · rfl
  · exact pget_pset_ne p .issuedAt k _ h

theorem pmem_default_expiration_ne (s : ApiSettings) (now : Int)
    (p : Payload) (k : ClaimKey) (h : ¬ k = ClaimKey.expirationTime) :
    pmem (default_expiration s now p) k = pmem p k := by
  unfold default_expiration
  split
  · rfl
  · split
    · exact pmem_pset_ne p .expirationTime k _ h
    · split
      · exact pmem_pset_ne p .expirationTime k _ h
      · rfl

theorem pmem_default_issued_at_ne (now : Int) (p : Payload) (k : ClaimKey)
    (h : ¬ k = ClaimKey.issuedAt) :
    pmem (default_issued_at now p) k = pmem p k := by
  unfold default_issued_at
  split
  · rfl
  · exact pmem_pset_ne p .issuedAt k _ h

/-- C5 counterexample: issuing for issuer `"ghost"` (absent from
`PRIVATE_KEYS`) fails with the `RuntimeError` class — the class the code
uses for configuration errors — while the no-reference-matches-key-id
failure of the key resolver is an `InvalidKeyError`; the two failures are
therefore of different error classes, against the claim that both fall in
the same key-error category. -/
theorem c5_error_class_counterexample :
    encode_jwt_token fixSettings fixEnv 0
      [(.token, TOKEN_SESSION), (.issuer, .str "ghost"),
       (.audience, .str "aud"), (.sessionId, .str "s1"),
       (.userId, .str "u1")] =
      .error (.runtimeError "Private key for specified issuer was not found in settings")
    ∧ get_key_file_name fixSettings.PRIVATE_KEYS "me" (some "nomatch") =
      .error (.invalidKey "No key matches the given key_id")
    ∧ JwtError.runtimeError "Private key for specified issuer was not found in settings"
      ≠ JwtError.invalidKey "No key matches the given key_id" := by
  decide

/-- C5 amended: a payload whose finalized issuer has no `PRIVATE_KEYS`
entry makes `encode_jwt_token` fail — but with the `RuntimeError` class
shared with the configuration errors, not with the `InvalidKeyError`
class raised when no reference matches a requested key identifier (or
when an issuer's key entry is present but empty). -/
theorem c5_missing_private_key_is_runtime_error (s : ApiSettings)
    (env : Env) (now : Int) (p : Payload) (i : String)
    (ht : pget p .token = TOKEN_SESSION ∨ pget p .token = TOKEN_AUTHORIZATION)
    (hiss : pget p .issuer = .str i) (hi : ¬ i = "")
    (haud : (pget p .audience).truthy = true)
    (hkeys : dget s.PRIVATE_KEYS i = Option.none) :
    encode_jwt_token s env now p =
      .error (.runtimeError "Private key for specified issuer was not found in settings") := by
  have hc1 : (!(pget p .token == TOKEN_SESSION
                || pget p .token == TOKEN_AUTHORIZATION)) = false := by
    rcases ht with ht | ht <;> simp [ht]
  have hdi : default_issuer s p = .ok p := by
    unfold default_issuer
    rw [hiss]
    simp [Value.truthy, beq_eq_false_iff_ne.mpr hi]
  have hda : default_audience s p = .ok p := by
    unfold default_audience
    rw [haud]
    simp
  have hpi : pget (default_issued_at now (default_expiration s now p))
      .issuer = Value.str i := by
    rw [pget_default_issued_at_ne now _ .issuer (by decide),
      pget_default_expiration_ne s now p .issuer (by decide), hiss]
  simp only [encode_jwt_token, hc1, Bool.false_eq_true, if_false, hdi, hda,
    hpi, hkeys, Option.isSome_none, Bool.false_eq_true]

/-- Closed evaluation of `c5_missing_private_key_is_runtime_error` at the
counterexample's input. -/
theorem c5_missing_private_key_is_runtime_error_witness :
    encode_jwt_token fixSettings fixEnv 5
      [(.token, TOKEN_AUTHORIZATION), (.issuer, .str "ghost"),
       (.audience, .str "aud"), (.sessionId, .str "s1"),
       (.userId, .str "u1")] =
      .error (.runtimeError "Private key for specified issuer was not found in settings") :=
  c5_missing_private_key_is_runtime_error fixSettings fixEnv 5
    [(.token, TOKEN_AUTHORIZATION), (.issuer, .str "ghost"),
     (.audience, .str "aud"), (.sessionId, .str "s1"), (.userId, .str "u1")]
    "ghost" (Or.inr (by decide)) (by decide) (by decide) (by decide)
    (by decide)

/-- C6 counterexample: with session verification off, the unknown-user
failure carries message `"Invalid token."` while the inactive-user failure
carries `"User inactive or deleted."` — the same exception class but
distinguishable payloads, against the claim that all three causes are
indistinguishable. -/
theorem c6_distinguishable_counterexample :
    authenticate_payload { fixSettings with VERIFY_SESSION_TOKEN := false }
      { active_sessions := [], users := [{ pk := .str "u1", is_active := false }] }
      [(.sessionId, .str "s1"), (.userId, .str "u1")] =
      .error (.authenticationFailed "User inactive or deleted.")
    ∧ authenticate_payload { fixSettings with VERIFY_SESSION_TOKEN := false }
      { active_sessions := [], users := [] }
      [(.sessionId, .str "s1"), (.userId, .str "u1")] =
      .error (.authenticationFailed "Invalid token.")
    ∧ JwtError.authenticationFailed "User inactive or deleted."
      ≠ JwtError.authenticationFailed "Invalid token." := by
  decide

/-- C6 amended: every resolution failure of `authenticate_payload` is the
same `AuthenticationFailed` exception class, but only the unknown-session
and unknown-user causes share the generic `"Invalid token."` detail; a
found-but-inactive user is rejected with the distinct
`"User inactive or deleted."` detail (on both the live-session and the
direct-user path). -/
theorem c6_auth_failure_shapes (s : ApiSettings) (db : Db) (p : Payload) :
    (s.VERIFY_SESSION_TOKEN = true →
      find_active_session db (pget p .sessionId) (pget p .userId) =
        Option.none →
      authenticate_payload s db p =
        .error (.authenticationFailed "Invalid token."))
    ∧ (s.VERIFY_SESSION_TOKEN = false →
      find_user db (pget p .userId) = Option.none →
      authenticate_payload s db p =
        .error (.authenticationFailed "Invalid token."))
    ∧ (∀ st, s.VERIFY_SESSION_TOKEN = true →
      find_active_session db (pget p .sessionId) (pget p .userId) = some st →
      st.user.is_active = false →
      authenticate_payload s db p =
        .error (.authenticationFailed "User inactive or deleted."))
    ∧ (∀ u, s.VERIFY_SESSION_TOKEN = false →
      find_user db (pget p .userId) = some u → u.is_active = false →
      authenticate_payload s db p =
        .error (.authenticationFailed "User inactive or deleted.")) := by
  refine ⟨?_, ?_, ?_, ?_⟩
  · intro hv hf
    simp [authenticate_payload, hv, hf]
  · intro hv hf
    simp [authenticate_payload, hv, hf]
  · intro st hv hf hact
    simp [authenticate_payload, hv, hf, hact]
  · intro u hv hf hact
    simp [authenticate_payload, hv, hf, hact]

/-- Closed evaluation of `c6_auth_failure_shapes`: an unknown session on
the live-session path yields the generic `"Invalid token."` failure. -/
theorem c6_auth_failure_shapes_witness :
    authenticate_payload fixSettings
      { active_sessions := [], users := [] }
      [(.sessionId, .str "s1"), (.userId, .str "u1")] =
      .error (.authenticationFailed "Invalid token.") :=
  (c6_auth_failure_shapes fixSettings { active_sessions := [], users := [] }
    [(.sessionId, .str "s1"), (.userId, .str "u1")]).1
    (by decide) (by decide)

theorem pmem_of_truthy (p : Payload) (k : ClaimKey)
    (h : (pget p k).truthy = true) : pmem p k = true := by
  unfold pget at h
  unfold pmem
  cases hf : pfind p k with
  | some v => simp
  | none => rw [hf] at h; simp [Value.truthy] at h

theorem default_issuer_pget_ne (s : ApiSettings) (p p1 : Payload)
    (k : ClaimKey) (h : default_issuer s p = .ok p1)
    (hk : ¬ k = ClaimKey.issuer) : pget p1 k = pget p k := by
  unfold default_issuer at h
  split at h
  · cases h; rfl
  · cases hI : s.IDENTITY with
    | some i =>
      rw [hI] at h
      cases h
      exact pget_pset_ne p .issuer k _ hk
    | none => rw [hI] at h; cases h

theorem default_issuer_pmem_issuer (s : ApiSettings) (p p1 : Payload)
    (h : default_issuer s p = .ok p1) : pmem p1 .issuer = true := by
  unfold default_issuer at h
  split at h
  · cases h
    next htr => exact pmem_of_truthy p .issuer htr
  · cases hI : s.IDENTITY with
    | some i => rw [hI] at h; cases h; exact pmem_pset_self p .issuer _
    | none => rw [hI] at h; cases h

theorem default_audience_pget_ne (s : ApiSettings) (p p2 : Payload)
    (k : ClaimKey) (h : default_audience s p = .ok p2)
    (hk : ¬ k = ClaimKey.audience) : pget p2 k = pget p k := by
  unfold default_audience at h
  split at h
  · cases h; rfl
  · split at h
    · cases h; exact pget_pset_ne p .audience k _ hk
    · split at h
      · cases h; exact pget_pset_ne p .audience k _ hk
      · cases hI : s.IDENTITY with
        | some i =>
          rw [hI] at h
          cases h
          exact pget_pset_ne p .audience k _ hk
        | none => rw [hI] at h; cases h

theorem default_audience_pmem_audience (s : ApiSettings) (p p2 : Payload)
    (h : default_audience s p = .ok p2) : pmem p2 .audience = true := by
  unfold default_audience at h
  split at h
  · cases h
    next htr => exact pmem_of_truthy p .audience htr
  · split at h
    · cases h; exact pmem_pset_self p .audience _
    · split at h
      · cases h; exact pmem_pset_self p .audience _
      · cases hI : s.IDENTITY with
        | some i => rw [hI] at h; cases h; exact pmem_pset_self p .audience _
        | none => rw [hI] at h; cases h

theorem default_issued_at_pmem (now : Int) (p : Payload) :
    pmem (default_issued_at now p) .issuedAt = true := by
  unfold default_issued_at
  split
  · next htr => exact pmem_of_truthy p .issuedAt htr
  · exact pmem_pset_self p .issuedAt _

/-- Inversion of a successful `encode_jwt_token` run: the issuer and
audience defaulting steps succeeded, the returned payload is the input
taken through the four defaulting steps, and the emitted token's body is
exactly that payload. -/
theorem encode_ok_shape (s : ApiSettings) (env : Env) (now : Int)
    (p : Payload) (tok : Token) (fp : Payload)
    (h : encode_jwt_token s env now p = .ok (tok, fp)) :
    ∃ p1 p2, default_issuer s p = .ok p1 ∧ default_audience s p1 = .ok p2
      ∧ fp = default_issued_at now (default_expiration s now p2)
      ∧ tok.body = fp := by
  unfold encode_jwt_token at h
  split at h
  · cases h
  · split at h
    · cases h
    · split at h
      · cases h
      · rename_i x1 p1 hdi x2 p2 hda
        dsimp only at h
        split at h
        · split at h
          · split at h
            · cases h
            · have h1 := congrArg (fun q => q.2) (Except.ok.inj h)
              have h2 := congrArg (fun q => q.1.body) (Except.ok.inj h)
              simp only [] at h1 h2
              exact ⟨p1, p2, hdi, hda, h1.symm, h2.symm.trans h1⟩
          · cases h
        · cases h

/-- `default_audience` on a payload with falsy audience, phrased through
`audience_resolved`. -/
theorem default_audience_eq_resolved (s : ApiSettings) (p : Payload)
    (ha : (pget p .audience).truthy = false) :
    default_audience s p =
      (match audience_resolved s (pget p .token) with
       | some a => .ok (pset p .audience a)
       | _ => (.error (.runtimeError "SESSION_AUDIENCE must be specified in settings")
               : Except JwtError Payload)) := by
  unfold default_audience audience_resolved
  rw [ha]
  simp only [Bool.false_eq_true, if_false]
  cases h1 : (if pget p .token == TOKEN_SESSION then s.SESSION_AUDIENCE
              else Option.none) with
  | some a => simp
  | none =>
    simp only []
    cases h2 : (if pget p .token == TOKEN_AUTHORIZATION then
                  s.AUTHORIZATION_AUDIENCE
                else Option.none) with
    | some a => simp
    | none =>
      simp only []
      cases hI : s.IDENTITY with
      | some i => simp [Option.map]
      | none => simp [Option.map]

theorem audience_resolved_none_identity (s : ApiSettings) (t : Value)
    (h : audience_resolved s t = Option.none) : s.IDENTITY = Option.none := by
  unfold audience_resolved at h
  split at h
  · cases h
  · split at h
    · cases h
    · exact Option.map_eq_none'.mp h

theorem get_key_file_name_error_class (keys : List (String × KeyRefs))
    (issuer : String) (kid : Option String) (e : JwtError)
    (h : get_key_file_name keys issuer kid = .error e) :
    ∃ m, e = .invalidKey m := by
  unfold get_key_file_name at h
  split at h
  · exact ⟨_, (Except.error.inj h).symm⟩
  · split at h
    · exact ⟨_, (Except.error.inj h).symm⟩
    · dsimp only at h
      split at h
      · exact ⟨_, (Except.error.inj h).symm⟩
      · cases h

theorem get_private_key_error_class (s : ApiSettings) (env : Env)
    (i : String) (kid : Option String) (e : JwtError)
    (h : get_private_key_and_key_id s env i kid = .error e) :
    (∃ m, e = .invalidKey m) ∨ (∃ m, e = .ioError m) := by
  unfold get_private_key_and_key_id at h
  split at h
  · next heq =>
    exact Or.inl (get_key_file_name_error_class _ _ _ _
      (by rw [heq, Except.error.inj h]))
  · split at h
    · next heq =>
      refine Or.inr ⟨"could not read key file", ?_⟩
      unfold read_key_file at heq
      split at heq
      · cases heq
      · rw [← Except.error.inj h, ← Except.error.inj heq]
    · cases h

/-- C7: on a payload with absent (falsy) audience and a known token type,
`encode_jwt_token` defaults the audience exactly as `audience_resolved`
prescribes — the per-type configured audience, else the one-element list
`[IDENTITY]` — and the audience configuration error occurs exactly when
nothing resolves, which requires the self-identity to be unset as well. -/
theorem c7_audience_defaulting (s : ApiSettings) (env : Env) (now : Int)
    (p : Payload)
    (ht : pget p .token = TOKEN_SESSION ∨ pget p .token = TOKEN_AUTHORIZATION)
    (ha : (pget p .audience).truthy = false) :
    (∀ tok fp, encode_jwt_token s env now p = .ok (tok, fp) →
      audience_resolved s (pget p .token) = some (pget fp .audience))
    ∧ ((pget p .issuer).truthy = true →
      audience_resolved s (pget p .token) = Option.none →
      encode_jwt_token s env now p =
        .error (.runtimeError "SESSION_AUDIENCE must be specified in settings"))
    ∧ (encode_jwt_token s env now p =
        .error (.runtimeError "SESSION_AUDIENCE must be specified in settings") →
      s.IDENTITY = Option.none
      ∧ audience_resolved s (pget p .token) = Option.none) := by
  have hc1 : (!(pget p .token == TOKEN_SESSION
                || pget p .token == TOKEN_AUTHORIZATION)) = false := by
    rcases ht with ht | ht <;> simp [ht]
  refine ⟨?_, ?_, ?_⟩
  · intro tok fp henc
    obtain ⟨p1, p2, hdi, hda, hfp, _⟩ := encode_ok_shape s env now p tok fp henc
    have htok1 : pget p1 .token = pget p .token :=
      default_issuer_pget_ne s p p1 .token hdi (by decide)
    have haud1 : (pget p1 .audience).truthy = false := by
      rw [default_issuer_pget_ne s p p1 .audience hdi (by decide)]
      exact ha
    have hres := default_audience_eq_resolved s p1 haud1
    rw [hda] at hres
    cases har : audience_resolved s (pget p1 .token) with
    | none => rw [har] at hres; cases hres
    | some a =>
      rw [har] at hres
      have hp2 : p2 = pset p1 .audience a := Except.ok.inj hres
      have hfa : pget fp .audience = a := by
        rw [hfp, pget_default_issued_at_ne now _ .audience (by decide),
          pget_default_expiration_ne s now _ .audience (by decide), hp2,
          pget_pset_self]
      rw [← htok1, har, hfa]
  · intro hisstr har
    have hdi : default_issuer s p = .ok p := by
      unfold default_issuer
      rw [hisstr]
      simp
    have hres := default_audience_eq_resolved s p ha
    rw [har] at hres
    simp only [encode_jwt_token, hc1, Bool.false_eq_true, if_false, hdi, hres]
  · intro henc
    suffices har : audience_resolved s (pget p .token) = Option.none by
      exact ⟨audience_resolved_none_identity s _ har, har⟩
    by_contra harne
    cases har : audience_resolved s (pget p .token) with
    | none => exact harne har
    | some a =>
      clear harne
      simp only [encode_jwt_token, hc1, Bool.false_eq_true, if_false] at henc
      split at henc
      · next e heq =>
        unfold default_issuer at heq
        split at heq
        · cases heq
        · split at heq
          · cases heq
          · have := Except.error.inj heq
            rw [← this] at henc
            exact absurd (Except.error.inj henc) (by decide)
      · next p1 hdi =>
        have htok1 : pget p1 .token = pget p .token :=
          default_issuer_pget_ne s p p1 .token hdi (by decide)
        have haud1 : (pget p1 .audience).truthy = false := by
          rw [default_issuer_pget_ne s p p1 .audience hdi (by decide)]
          exact ha
        have hres := default_audience_eq_resolved s p1 haud1
        rw [htok1, har] at hres
        rw [hres] at henc
        dsimp only at henc
        split at henc
        · split at henc
          · split at henc
            · next e heqk =>
              have := Except.error.inj henc
              rw [this] at heqk
              rcases get_private_key_error_class s env _ _ _ heqk with
                ⟨m, hm⟩ | ⟨m, hm⟩ <;> cases hm
            · cases henc
          · exact absurd (Except.error.inj henc) (by decide)
        · exact absurd (Except.error.inj henc) (by decide)

/-- Closed evaluation of `c7_audience_defaulting`: with no per-type
audience configured, encoding a SESSION payload with absent audience
defaults it to `["me"]`, the one-element self-identity list. -/
theorem c7_audience_defaulting_witness :
    audience_resolved fixSettings TOKEN_SESSION =
      some (Value.strList ["me"]) :=
  have henc : encode_jwt_token fixSettings fixEnv 1000
      (create_session_payload (.str "s1") (.str "u1") "a@b.com") =
      .ok ({ header_kid := .str "me-key",
             body := create_session_payload (.str "s1") (.str "u1") "a@b.com"
               ++ [(.issuer, .str "me"), (.audience, .strList ["me"]),
                   (.expirationTime, .time 4600), (.issuedAt, .time 1000)],
             sig_key := "PRIVKEY", sig_alg := "RS256", sig_intact := true },
           create_session_payload (.str "s1") (.str "u1") "a@b.com"
             ++ [(.issuer, .str "me"), (.audience, .strList ["me"]),
                 (.expirationTime, .time 4600), (.issuedAt, .time 1000)]) :=
    by decide
  (c7_audience_defaulting fixSettings fixEnv 1000
    (create_session_payload (.str "s1") (.str "u1") "a@b.com")
    (Or.inl (by decide)) (by decide)).1 _ _ henc

theorem truthy_false_of_not_pmem (p : Payload) (k : ClaimKey)
    (h : pmem p k = false) : (pget p k).truthy = false := by
  unfold pmem at h
  unfold pget
  cases hf : pfind p k with
  | some v => rw [hf] at h; simp at h
  | none => simp [Value.truthy]

theorem default_issuer_pmem_ne (s : ApiSettings) (p p1 : Payload)
    (k : ClaimKey) (h : default_issuer s p = .ok p1)
    (hk : ¬ k = ClaimKey.issuer) : pmem p1 k = pmem p k := by
  unfold default_issuer at h
  split at h
  · cases h; rfl
  · cases hI : s.IDENTITY with
    | some i =>
      rw [hI] at h
      cases h
      exact pmem_pset_ne p .issuer k _ hk
    | none => rw [hI] at h; cases h

theorem default_audience_pmem_ne (s : ApiSettings) (p p2 : Payload)
    (k : ClaimKey) (h : default_audience s p = .ok p2)
    (hk : ¬ k = ClaimKey.audience) : pmem p2 k = pmem p k := by
  unfold default_audience at h
  split at h
  · cases h; rfl
  · split at h
    · cases h; exact pmem_pset_ne p .audience k _ hk
    · split at h
      · cases h; exact pmem_pset_ne p .audience k _ hk
      · cases hI : s.IDENTITY with
        | some i =>
          rw [hI] at h
          cases h
          exact pmem_pset_ne p .audience k _ hk
        | none => rw [hI] at h; cases h

/-- `default_expiration` on a payload with falsy expiration, phrased
through `expiration_ttl`. -/
theorem default_expiration_eq_ttl (s : ApiSettings) (now : Int)
    (p : Payload) (he : (pget p .expirationTime).truthy = false) :
    default_expiration s now p =
      (match expiration_ttl s (pget p .token) with
       | some d => pset p .expirationTime (.time (now + d))
       | _ => p) := by
  unfold default_expiration expiration_ttl
  rw [he]
  simp only [Bool.false_eq_true, if_false]
  cases h1 : (if pget p .token == TOKEN_SESSION then s.SESSION_EXPIRATION
              else Option.none) with
  | some d => simp
  | none => rfl

/-- The error behaviour of `encode_jwt_token` does not depend on the
expiration-TTL configuration. -/
theorem encode_error_ttl_indep (s : ApiSettings) (env : Env) (now : Int)
    (p : Payload) (o1 o2 : Option Int) (e : JwtError)
    (h : encode_jwt_token (withTTLs s o1) env now p = .error e) :
    encode_jwt_token (withTTLs s o2) env now p = .error e := by
  unfold encode_jwt_token at h ⊢
  by_cases hc : (!(pget p .token == TOKEN_SESSION
                  || pget p .token == TOKEN_AUTHORIZATION)) = true
  · rw [if_pos hc] at h ⊢
    exact h
  · rw [if_neg hc] at h ⊢
    have hdieq : default_issuer (withTTLs s o2) p
        = default_issuer (withTTLs s o1) p := rfl
    rw [hdieq]
    cases hdi : default_issuer (withTTLs s o1) p with
    | error e2 =>
      simp only [hdi] at h ⊢
      exact h
    | ok p1 =>
      simp only [hdi] at h ⊢
      have hdaeq : default_audience (withTTLs s o2) p1
          = default_audience (withTTLs s o1) p1 := rfl
      rw [hdaeq]
      cases hda : default_audience (withTTLs s o1) p1 with
      | error e2 =>
        simp only [hda] at h ⊢
        exact h
      | ok p2 =>
        simp only [hda] at h ⊢
        have hia : pget (default_issued_at now
            (default_expiration (withTTLs s o1) now p2)) .issuer
            = pget p2 .issuer := by
          rw [pget_default_issued_at_ne now _ .issuer (by decide),
            pget_default_expiration_ne _ now p2 .issuer (by decide)]
        have hib : pget (default_issued_at now
            (default_expiration (withTTLs s o2) now p2)) .issuer
            = pget p2 .issuer := by
          rw [pget_default_issued_at_ne now _ .issuer (by decide),
            pget_default_expiration_ne _ now p2 .issuer (by decide)]
        rw [hia] at h
        rw [hib]
        cases hi : pget p2 .issuer with
        | str i =>
          simp only [hi] at h ⊢
          have hkeq : (dget (withTTLs s o2).PRIVATE_KEYS i).isSome
              = (dget (withTTLs s o1).PRIVATE_KEYS i).isSome := rfl
          rw [hkeq]
          by_cases hks : (dget (withTTLs s o1).PRIVATE_KEYS i).isSome = true
          · rw [if_pos hks] at h ⊢
            have hpkeq : get_private_key_and_key_id (withTTLs s o2) env i
                Option.none
                = get_private_key_and_key_id (withTTLs s o1) env i
                    Option.none := rfl
            rw [hpkeq]
            cases hpk : get_private_key_and_key_id (withTTLs s o1) env i
                Option.none with
            | error e2 =>
              simp only [hpk] at h ⊢
              exact h
            | ok pk =>
              simp only [hpk] at h
              cases h
          · rw [if_neg hks] at h ⊢
            exact h
        | none => simp only [hi] at h ⊢; exact h
        | int n => simp only [hi] at h ⊢; exact h
        | time t => simp only [hi] at h ⊢; exact h
        | strList l => simp only [hi] at h ⊢; exact h

/-- C8: a payload with absent expiration whose token type has no
configured TTL still encodes into a token carrying no expiration claim
(both in the emitted body and the caller's payload), the TTL
configuration never influences which errors `encode_jwt_token` can
produce, and a configured TTL stamps `expiration_time = now + TTL`. -/
theorem c8_missing_ttl_non_expiring (s : ApiSettings) (env : Env)
    (now : Int) (p : Payload)
    (hexp : pmem p .expirationTime = false) :
    (expiration_ttl s (pget p .token) = Option.none →
      ∀ tok fp, encode_jwt_token s env now p = .ok (tok, fp) →
        pmem tok.body .expirationTime = false
        ∧ pmem fp .expirationTime = false)
    ∧ (∀ d, expiration_ttl s (pget p .token) = some d →
      ∀ tok fp, encode_jwt_token s env now p = .ok (tok, fp) →
        pget fp .expirationTime = .time (now + d))
    ∧ (∀ o1 o2 e,
        encode_jwt_token (withTTLs s o1) env now p = .error e ↔
        encode_jwt_token (withTTLs s o2) env now p = .error e) := by
  refine ⟨?_, ?_, ?_⟩
  · intro httl tok fp henc
    obtain ⟨p1, p2, hdi, hda, hfp, hbody⟩ :=
      encode_ok_shape s env now p tok fp henc
    have hm2 : pmem p2 .expirationTime = false := by
      rw [default_audience_pmem_ne s p1 p2 _ hda (by decide),
        default_issuer_pmem_ne s p p1 _ hdi (by decide)]
      exact hexp
    have ht2 : pget p2 .token = pget p .token := by
      rw [default_audience_pget_ne s p1 p2 _ hda (by decide),
        default_issuer_pget_ne s p p1 _ hdi (by decide)]
    have hde : default_expiration s now p2 = p2 := by
      rw [default_expiration_eq_ttl s now p2 (truthy_false_of_not_pmem _ _ hm2),
        ht2, httl]
    have hmf : pmem fp .expirationTime = false := by
      rw [hfp, pmem_default_issued_at_ne now _ _ (by decide), hde]
      exact hm2
    exact ⟨by rw [hbody]; exact hmf, hmf⟩
  · intro d httl tok fp henc
    obtain ⟨p1, p2, hdi, hda, hfp, hbody⟩ :=
      encode_ok_shape s env now p tok fp henc
    have hm2 : pmem p2 .expirationTime = false := by
      rw [default_audience_pmem_ne s p1 p2 _ hda (by decide),
        default_issuer_pmem_ne s p p1 _ hdi (by decide)]
      exact hexp
    have ht2 : pget p2 .token = pget p .token := by
      rw [default_audience_pget_ne s p1 p2 _ hda (by decide),
        default_issuer_pget_ne s p p1 _ hdi (by decide)]
    have hde : default_expiration s now p2
        = pset p2 .expirationTime (.time (now + d)) := by
      rw [default_expiration_eq_ttl s now p2 (truthy_false_of_not_pmem _ _ hm2),
        ht2, httl]
    rw [hfp, pget_default_issued_at_ne now _ _ (by decide), hde,
      pget_pset_self]
  · intro o1 o2 e
    exact ⟨encode_error_ttl_indep s env now p o1 o2 e,
      encode_error_ttl_indep s env now p o2 o1 e⟩

/-- Closed evaluation of `c8_missing_ttl_non_expiring`: an AUTHORIZATION
payload (no AUTHORIZATION TTL configured in `fixSettings`) encodes
successfully into a token with no expiration claim. -/
theorem c8_missing_ttl_non_expiring_witness :
    pmem
      ({ header_kid := .str "me-key",
         body := create_authorization_payload (.str "s1") (.str "u1") "a@b.com"
           ++ [(.issuer, .str "me"), (.audience, .strList ["me"]),
               (.issuedAt, .time 1000)],
         sig_key := "PRIVKEY", sig_alg := "RS256",
         sig_intact := true } : Token).body .expirationTime = false :=
  ((c8_missing_ttl_non_expiring fixSettings fixEnv 1000
      (create_authorization_payload (.str "s1") (.str "u1") "a@b.com")
      (by decide)).1 (by decide)
    { header_kid := .str "me-key",
      body := create_authorization_payload (.str "s1") (.str "u1") "a@b.com"
        ++ [(.issuer, .str "me"), (.audience, .strList ["me"]),
            (.issuedAt, .time 1000)],
      sig_key := "PRIVKEY", sig_alg := "RS256", sig_intact := true }
    (create_authorization_payload (.str "s1") (.str "u1") "a@b.com"
      ++ [(.issuer, .str "me"), (.audience, .strList ["me"]),
          (.issuedAt, .time 1000)])
    (by decide)).1

theorem pfind_append_of_mem (p q : Payload) (k : ClaimKey)
    (h : pmem p k = true) : pfind (p ++ q) k = pfind p k := by
  rw [pfind_append]
  unfold pmem at h
  cases hf : pfind p k with
  | some v => simp
  | none => rw [hf] at h; simp at h

theorem pget_append_left (p q : Payload) (k : ClaimKey)
    (h : pmem p k = true) : pget (p ++ q) k = pget p k := by
  unfold pget
  rw [pfind_append_of_mem p q k h]

theorem pmem_append_left (p q : Payload) (k : ClaimKey)
    (h : pmem p k = true) : pmem (p ++ q) k = true := by
  unfold pmem
  rw [pfind_append_of_mem p q k h]
  exact h

theorem pmem_token_of_known (p : Payload)
    (ht : pget p .token = TOKEN_SESSION ∨ pget p .token = TOKEN_AUTHORIZATION) :
    pmem p .token = true := by
  rcases ht with h | h <;>
    exact pmem_of_truthy p .token (by rw [h]; decide)

theorem dget_isSome_of_private_ok (s : ApiSettings) (env : Env)
    (i : String) (kid : Option String) (pk : String × String)
    (h : get_private_key_and_key_id s env i kid = .ok pk) :
    (dget s.PRIVATE_KEYS i).isSome = true := by
  unfold get_private_key_and_key_id at h
  split at h
  · cases h
  · next fn heq =>
    unfold get_key_file_name at heq
    split at heq
    · cases heq
    · next refs heq2 => rw [heq2]; rfl

/-- Forward computation of a successful `encode_jwt_token` run on a
payload carrying none of the defaultable claims: the emitted token and
final payload are the input extended, in order, with the defaulted
issuer, audience, expiration (when a TTL is configured for the token
type) and issued-at claims. -/
theorem encode_round_shape (s : ApiSettings) (env : Env) (now : Int)
    (p : Payload) (idn priv kid : String) (av : Value)
    (ht : pget p .token = TOKEN_SESSION ∨ pget p .token = TOKEN_AUTHORIZATION)
    (hiss : pmem p .issuer = false)
    (haud : pmem p .audience = false)
    (hexp : pmem p .expirationTime = false)
    (hiat : pmem p .issuedAt = false)
    (hI : s.IDENTITY = some idn)
    (harv : audience_resolved s (pget p .token) = some av)
    (hpriv : get_private_key_and_key_id s env idn Option.none = .ok (priv, kid)) :
    encode_jwt_token s env now p =
      .ok ({ header_kid := .str kid,
             body := p ++ ((ClaimKey.issuer, Value.str idn)
               :: (ClaimKey.audience, av)
               :: ((match expiration_ttl s (pget p .token) with
                    | some d => [(ClaimKey.expirationTime, Value.time (now + d))]
                    | _ => ([] : Payload))
                   ++ [(ClaimKey.issuedAt, Value.time now)])),
             sig_key := priv, sig_alg := s.ENCODE_ALGORITHM,
             sig_intact := true },
           p ++ ((ClaimKey.issuer, Value.str idn)
             :: (ClaimKey.audience, av)
             :: ((match expiration_ttl s (pget p .token) with
                  | some d => [(ClaimKey.expirationTime, Value.time (now + d))]
                  | _ => ([] : Payload))
                 ++ [(ClaimKey.issuedAt, Value.time now)]))) := by
  have hc1 : (!(pget p .token == TOKEN_SESSION
                || pget p .token == TOKEN_AUTHORIZATION)) = false := by
    rcases ht with h | h <;> simp [h]
  have hmem_tok : pmem p .token = true := pmem_token_of_known p ht
  have h1 : default_issuer s p = .ok (p ++ [(.issuer, .str idn)]) := by
    unfold default_issuer
    rw [truthy_false_of_not_pmem p .issuer hiss, hI]
    simp [pset_of_not_mem p .issuer _ hiss]
  have ht1 : pget (p ++ [(ClaimKey.issuer, Value.str idn)]) .token
      = pget p .token := pget_append_left p _ .token hmem_tok
  have haud1 : pmem (p ++ [(ClaimKey.issuer, Value.str idn)]) .audience
      = false := by
    unfold pmem
    rw [pfind_append_of_not_mem p _ .audience haud]
    rfl
  have h2 : default_audience s (p ++ [(ClaimKey.issuer, Value.str idn)])
      = .ok (p ++ [(ClaimKey.issuer, Value.str idn)]
          ++ [(ClaimKey.audience, av)]) := by
    rw [default_audience_eq_resolved s _ (truthy_false_of_not_pmem _ _ haud1),
      ht1, harv]
    show Except.ok (pset (p ++ [(ClaimKey.issuer, Value.str idn)])
        ClaimKey.audience av)
      = Except.ok (p ++ [(ClaimKey.issuer, Value.str idn)]
          ++ [(ClaimKey.audience, av)])
    rw [pset_of_not_mem _ _ _ haud1]
  have hexp2 : pmem (p ++ [(ClaimKey.issuer, Value.str idn)]
      ++ [(ClaimKey.audience, av)]) .expirationTime = false := by
    unfold pmem
    rw [List.append_assoc, pfind_append_of_not_mem p _ .expirationTime hexp]
    rfl
  have ht2 : pget (p ++ [(ClaimKey.issuer, Value.str idn)]
      ++ [(ClaimKey.audience, av)]) .token = pget p .token := by
    rw [List.append_assoc, pget_append_left p _ .token hmem_tok]
  have h3 : default_expiration s now
      (p ++ [(ClaimKey.issuer, Value.str idn)] ++ [(ClaimKey.audience, av)])
      = p ++ [(ClaimKey.issuer, Value.str idn)] ++ [(ClaimKey.audience, av)]
        ++ (match expiration_ttl s (pget p .token) with
            | some d => [(ClaimKey.expirationTime, Value.time (now + d))]
            | _ => ([] : Payload)) := by
    rw [default_expiration_eq_ttl s now _ (truthy_false_of_not_pmem _ _ hexp2),
      ht2]
    cases expiration_ttl s (pget p .token) with
    | some d => exact pset_of_not_mem _ _ _ hexp2
    | none => simp
  have hiat3 : pmem (p ++ [(ClaimKey.issuer, Value.str idn)]
      ++ [(ClaimKey.audience, av)]
      ++ (match expiration_ttl s (pget p .token) with
          | some d => [(ClaimKey.expirationTime, Value.time (now + d))]
          | _ => ([] : Payload))) .issuedAt = false := by
    unfold pmem
    rw [List.append_assoc, List.append_assoc,
      pfind_append_of_not_mem p _ .issuedAt hiat]
    cases expiration_ttl s (pget p .token) with
    | some d => rfl
    | none => rfl
  have h4 : default_issued_at now
      (p ++ [(ClaimKey.issuer, Value.str idn)] ++ [(ClaimKey.audience, av)]
        ++ (match expiration_ttl s (pget p .token) with
            | some d => [(ClaimKey.expirationTime, Value.time (now + d))]
            | _ => ([] : Payload)))
      = p ++ [(ClaimKey.issuer, Value.str idn)] ++ [(ClaimKey.audience, av)]
        ++ (match expiration_ttl s (pget p .token) with
            | some d => [(ClaimKey.expirationTime, Value.time (now + d))]
            | _ => ([] : Payload))
        ++ [(ClaimKey.issuedAt, Value.time now)] := by
    unfold default_issued_at
    rw [truthy_false_of_not_pmem _ _ hiat3]
    simp only [Bool.false_eq_true, if_false]
    exact pset_of_not_mem _ _ _ hiat3
  have hfiss : pget (p ++ [(ClaimKey.issuer, Value.str idn)]
      ++ [(ClaimKey.audience, av)]
      ++ (match expiration_ttl s (pget p .token) with
          | some d => [(ClaimKey.expirationTime, Value.time (now + d))]
          | _ => ([] : Payload))
      ++ [(ClaimKey.issuedAt, Value.time now)]) .issuer = Value.str idn := by
    unfold pget
    rw [List.append_assoc, List.append_assoc, List.append_assoc,
      pfind_append_of_not_mem p _ .issuer hiss]
    rfl
  have hsome : (dget s.PRIVATE_KEYS idn).isSome = true :=
    dget_isSome_of_private_ok s env idn Option.none (priv, kid) hpriv
  simp only [encode_jwt_token, hc1, Bool.false_eq_true, if_false, h1, h2, h3,
    h4, hfiss, hsome, if_true, hpriv]
  simp [List.append_assoc]

/-- Forward computation of a successful `decode_jwt_token` run: a token
whose body satisfies the verified-decode and claim-consistency conditions
for self-identity `idn` decodes to its body. -/
theorem decode_round_shape (s : ApiSettings) (env : Env) (now : Int)
    (tok : Token) (fp : Payload) (idn pub kid2 : String)
    (hI : s.IDENTITY = some idn)
    (hbody : tok.body = fp)
    (hmem : pmem fp .issuer = true)
    (hfiss : pget fp .issuer = Value.str idn)
    (haccept : s.ACCEPTED_ISSUERS = Option.none
      ∨ ∃ l, s.ACCEPTED_ISSUERS = some l ∧ l.contains idn = true)
    (hpub : get_public_key_and_key_id s env idn (unverified_key_id tok)
      = .ok (pub, kid2))
    (hsig : s.VERIFY_SIGNATURE = true →
      (decode_algorithms s).contains tok.sig_alg = true
      ∧ tok.sig_intact = true ∧ env.pubOf tok.sig_key = pub)
    (hiatv : pfind fp .issuedAt = Option.none
      ∨ ∃ t, pfind fp .issuedAt = some (Value.time t))
    (hexpv : pfind fp .expirationTime = Option.none
      ∨ ∃ tv, pfind fp .expirationTime = some (Value.time tv)
          ∧ ¬ (tv < now - s.EXPIRATION_LEEWAY))
    (haudv : ∃ avv, pfind fp .audience = some avv
      ∧ (avv = .str idn ∨ ∃ l, avv = .strList l ∧ l.contains idn = true))
    (htok : pget fp .token = TOKEN_SESSION
      ∨ pget fp .token = TOKEN_AUTHORIZATION)
    (hsid : (pget fp .sessionId).truthy = true)
    (huid : (pget fp .userId).truthy = true) :
    decode_jwt_token s env now tok = .ok fp := by
  have hpeek : decode_peek s tok = .ok idn := by
    unfold decode_peek
    rw [hbody, hmem]
    simp only [Bool.not_true, Bool.false_eq_true, if_false]
    rw [hfiss]
    rcases haccept with hacc | ⟨l, hacc, hl⟩
    · rw [hacc]
      rfl
    · rw [hacc]
      simp only [Value.text]
      simp only [hl]
      simp
  have hviat : validate_iat fp = .ok () := by
    unfold validate_iat
    rcases hiatv with h | ⟨t, h⟩
    · rw [h]
    · rw [h]
      rfl
  have hvexp : validate_exp s now fp = .ok () := by
    unfold validate_exp
    by_cases hv : s.VERIFY_EXPIRATION
    · simp only [hv, if_true]
      rcases hexpv with h | ⟨tv, h, hlt⟩
      · rw [h]
      · rw [h]
        simp [Value.toIntOpt, hlt]
    · simp [hv]
  have hviss : validate_iss idn fp = .ok () := by
    unfold validate_iss
    rw [hmem, hfiss]
    simp
  have hvaud : validate_aud s.IDENTITY fp = .ok () := by
    unfold validate_aud
    rw [hI]
    obtain ⟨avv, hav, hcase⟩ := haudv
    rw [hav]
    rcases hcase with rfl | ⟨l, rfl, hl⟩
    · simp
    · simp only [hl]
      simp
  have hver : jwt_decode_verified s env now tok pub idn = .ok fp := by
    unfold jwt_decode_verified
    have hgate : (if s.VERIFY_SIGNATURE then
        (if !((decode_algorithms s).contains tok.sig_alg) then
           Except.error (JwtError.invalidAlgorithm "The specified alg value is not allowed")
         else if !(tok.sig_intact && (env.pubOf tok.sig_key == pub)) then
           Except.error (JwtError.decodeError "Signature verification failed")
         else Except.ok ())
      else (Except.ok () : Except JwtError Unit)) = Except.ok () := by
      by_cases hv : s.VERIFY_SIGNATURE
      · obtain ⟨ha, hintact, hp⟩ := hsig hv
        simp only [hv, if_true, ha, hintact, hp, Bool.not_true,
          Bool.false_eq_true, if_false, beq_self_eq_true, Bool.and_true,
          Bool.true_and]
      · simp [hv]
    simp only [hbody, hgate, hviat, hvexp, hviss, hvaud]
  have hpchk : post_checks s fp = .ok fp := by
    unfold post_checks
    have hc1 : (!(pget fp .token == TOKEN_SESSION
                  || pget fp .token == TOKEN_AUTHORIZATION)) = false := by
      rcases htok with h | h <;> simp [h]
    have hidv : identityValue s = Value.str idn := by
      unfold identityValue
      rw [hI]
    have hc2 : (!(pget fp .issuer == identityValue s)
                && !(pget fp .token == TOKEN_AUTHORIZATION)) = false := by
      simp [hfiss, hidv]
    simp only [hc1, hc2, Bool.false_eq_true, if_false, hsid, huid]
    simp
  unfold decode_jwt_token decode_verified
  simp only [hpeek, hpub, hver, hpchk]

/-- C10: a successful `encode_jwt_token` call leaves the caller's payload
mapping (modelled as the returned final payload state) containing the
issuer, audience and issued-at claims, the expiration claim whenever the
input carried one or a TTL is configured for the token type, while every
other claim of the input payload is unchanged; the emitted token's body
is exactly that mutated payload. -/
theorem c10_encode_mutates_payload (s : ApiSettings) (env : Env)
    (now : Int) (p : Payload) (tok : Token) (fp : Payload)
    (henc : encode_jwt_token s env now p = .ok (tok, fp)) :
    tok.body = fp
    ∧ (∀ k, ¬ k = ClaimKey.issuer → ¬ k = ClaimKey.audience →
        ¬ k = ClaimKey.expirationTime → ¬ k = ClaimKey.issuedAt →
        pget fp k = pget p k)
    ∧ pmem fp .issuer = true
    ∧ pmem fp .audience = true
    ∧ pmem fp .issuedAt = true
    ∧ ((pget p .expirationTime).truthy = true
        ∨ expiration_ttl s (pget p .token) ≠ Option.none →
      pmem fp .expirationTime = true) := by
  obtain ⟨p1, p2, hdi, hda, hfp, hbody⟩ :=
    encode_ok_shape s env now p tok fp henc
  refine ⟨hbody, ?_, ?_, ?_, ?_, ?_⟩
  · intro k h1 h2 h3 h4
    rw [hfp, pget_default_issued_at_ne now _ k h4,
      pget_default_expiration_ne s now _ k h3,
      default_audience_pget_ne s p1 p2 k hda h2,
      default_issuer_pget_ne s p p1 k hdi h1]
  · rw [hfp, pmem_default_issued_at_ne now _ _ (by decide),
      pmem_default_expiration_ne s now _ _ (by decide),
      default_audience_pmem_ne s p1 p2 _ hda (by decide)]
    exact default_issuer_pmem_issuer s p p1 hdi
  · rw [hfp, pmem_default_issued_at_ne now _ _ (by decide),
      pmem_default_expiration_ne s now _ _ (by decide)]
    exact default_audience_pmem_audience s p1 p2 hda
  · rw [hfp]
    exact default_issued_at_pmem now _
  · intro hcase
    rw [hfp, pmem_default_issued_at_ne now _ _ (by decide)]
    by_cases htr : (pget p2 .expirationTime).truthy = true
    · have hde : default_expiration s now p2 = p2 := by
        unfold default_expiration
        rw [htr]
        simp
      rw [hde]
      exact pmem_of_truthy p2 _ htr
    · have htr2 : (pget p2 .expirationTime).truthy = false := by
        simpa using htr
      have heq := default_expiration_eq_ttl s now p2 htr2
      have ht2 : pget p2 .token = pget p .token := by
        rw [default_audience_pget_ne s p1 p2 _ hda (by decide),
          default_issuer_pget_ne s p p1 _ hdi (by decide)]
      rw [ht2] at heq
      rcases hcase with hin | httl
      · exfalso
        have hsame : pget p2 .expirationTime = pget p .expirationTime := by
          rw [default_audience_pget_ne s p1 p2 _ hda (by decide),
            default_issuer_pget_ne s p p1 _ hdi (by decide)]
        rw [hsame, hin] at htr2
        simp at htr2
      · cases httl0 : expiration_ttl s (pget p .token) with
        | none => exact absurd httl0 httl
        | some d =>
          simp only [httl0] at heq
          rw [heq]
          exact pmem_pset_self p2 _ _

/-- Closed evaluation of `c10_encode_mutates_payload`: the concretely
encoded session payload keeps its `email` claim unchanged in the mutated
payload state. -/
theorem c10_encode_mutates_payload_witness :
    pget (create_session_payload (.str "s1") (.str "u1") "a@b.com"
      ++ [(.issuer, .str "me"), (.audience, .strList ["me"]),
          (.expirationTime, .time 4600), (.issuedAt, .time 1000)]) .email
    = pget (create_session_payload (.str "s1") (.str "u1") "a@b.com")
        .email :=
  ((c10_encode_mutates_payload fixSettings fixEnv 1000
      (create_session_payload (.str "s1") (.str "u1") "a@b.com")
      { header_kid := .str "me-key",
        body := create_session_payload (.str "s1") (.str "u1") "a@b.com"
          ++ [(.issuer, .str "me"), (.audience, .strList ["me"]),
              (.expirationTime, .time 4600), (.issuedAt, .time 1000)],
        sig_key := "PRIVKEY", sig_alg := "RS256", sig_intact := true }
      (create_session_payload (.str "s1") (.str "u1") "a@b.com"
        ++ [(.issuer, .str "me"), (.audience, .strList ["me"]),
            (.expirationTime, .time 4600), (.issuedAt, .time 1000)])
      (by decide)).2.1) .email (by decide) (by decide) (by decide) (by decide)

/-- C4: round-trip — encoding a valid SESSION or AUTHORIZATION payload
(none of the defaultable claims present, truthy session and user ids)
under a correctly configured key pair and self-consistent audience/TTL
policy, then verifying the emitted token with `decode_jwt_token`,
succeeds and yields exactly the input payload extended with the
defaulted issuer, audience, expiration time (when a TTL is configured
for the token type) and issued-at claims. -/
theorem c4_encode_decode_round_trip (s : ApiSettings) (env : Env)
    (now : Int) (p : Payload) (idn priv kid pub kid2 : String)
    (ht : pget p .token = TOKEN_SESSION ∨ pget p .token = TOKEN_AUTHORIZATION)
    (hiss : pmem p .issuer = false)
    (haud : pmem p .audience = false)
    (hexp : pmem p .expirationTime = false)
    (hiat : pmem p .issuedAt = false)
    (hsid : (pget p .sessionId).truthy = true)
    (huid : (pget p .userId).truthy = true)
    (hI : s.IDENTITY = some idn)
    (haccept : s.ACCEPTED_ISSUERS = Option.none
      ∨ ∃ l, s.ACCEPTED_ISSUERS = some l ∧ l.contains idn = true)
    (hpriv : get_private_key_and_key_id s env idn Option.none
      = .ok (priv, kid))
    (hpub : get_public_key_and_key_id s env idn
        (if kid == "" then Option.none else some kid) = .ok (pub, kid2))
    (hpair : env.pubOf priv = pub)
    (halg : (decode_algorithms s).contains s.ENCODE_ALGORITHM = true)
    (harv : ∀ a, audience_resolved s (pget p .token) = some a →
      a = .str idn ∨ ∃ l, a = .strList l ∧ l.contains idn = true)
    (httl : ∀ d, expiration_ttl s (pget p .token) = some d →
      ¬ (now + d < now - s.EXPIRATION_LEEWAY)) :
    ∃ tok av,
      audience_resolved s (pget p .token) = some av
      ∧ encode_jwt_token s env now p =
          .ok (tok, p ++ ((ClaimKey.issuer, Value.str idn)
            :: (ClaimKey.audience, av)
            :: ((match expiration_ttl s (pget p .token) with
                 | some d => [(ClaimKey.expirationTime, Value.time (now + d))]
                 | _ => ([] : Payload))
                ++ [(ClaimKey.issuedAt, Value.time now)])))
      ∧ tok.body = p ++ ((ClaimKey.issuer, Value.str idn)
          :: (ClaimKey.audience, av)
          :: ((match expiration_ttl s (pget p .token) with
               | some d => [(ClaimKey.expirationTime, Value.time (now + d))]
               | _ => ([] : Payload))
              ++ [(ClaimKey.issuedAt, Value.time now)]))
      ∧ decode_jwt_token s env now tok =
          .ok (p ++ ((ClaimKey.issuer, Value.str idn)
            :: (ClaimKey.audience, av)
            :: ((match expiration_ttl s (pget p .token) with
                 | some d => [(ClaimKey.expirationTime, Value.time (now + d))]
                 | _ => ([] : Payload))
                ++ [(ClaimKey.issuedAt, Value.time now)]))) := by
  have hkid : ∀ t : Token, t.header_kid = Value.str kid →
      unverified_key_id t = (if kid == "" then Option.none else some kid) := by
    intro t h
    unfold unverified_key_id
    rw [h]
    by_cases hk : (kid == "") = true
    · simp [Value.truthy, hk]
    · simp [Value.truthy, hk, Value.text]
  cases harv0 : audience_resolved s (pget p .token) with
  | none =>
    exact absurd (audience_resolved_none_identity s _ harv0)
      (by rw [hI]; simp)
  | some av =>
    have havshape := harv av harv0
    have henc := encode_round_shape s env now p idn priv kid av ht hiss haud
      hexp hiat hI harv0 hpriv
    cases httl0 : expiration_ttl s (pget p .token) with
    | some d =>
      simp only [httl0] at henc
      refine ⟨_, av, rfl, henc, rfl, ?_⟩
      refine decode_round_shape s env now _ _ idn pub kid2 hI rfl ?_ ?_
        haccept ?_ ?_ ?_ ?_ ?_ ?_ ?_ ?_
      · unfold pmem
        rw [pfind_append_of_not_mem p _ .issuer hiss]
        rfl
      · unfold pget
        rw [pfind_append_of_not_mem p _ .issuer hiss]
        rfl
      · rw [hkid _ rfl]
        exact hpub
      · intro hv
        exact ⟨halg, rfl, hpair⟩
      · refine Or.inr ⟨now, ?_⟩
        rw [pfind_append_of_not_mem p _ .issuedAt hiat]
        rfl
      · refine Or.inr ⟨now + d, ?_, httl d httl0⟩
        rw [pfind_append_of_not_mem p _ .expirationTime hexp]
        rfl
      · refine ⟨av, ?_, havshape⟩
        rw [pfind_append_of_not_mem p _ .audience haud]
        rfl
      · rw [pget_append_left p _ .token (pmem_token_of_known p ht)]
        exact ht
      · rw [pget_append_left p _ .sessionId (pmem_of_truthy p _ hsid)]
        exact hsid
      · rw [pget_append_left p _ .userId (pmem_of_truthy p _ huid)]
        exact huid
    | none =>
      simp only [httl0] at henc
      refine ⟨_, av, rfl, henc, rfl, ?_⟩
      refine decode_round_shape s env now _ _ idn pub kid2 hI rfl ?_ ?_
        haccept ?_ ?_ ?_ ?_ ?_ ?_ ?_ ?_
      · unfold pmem
        rw [pfind_append_of_not_mem p _ .issuer hiss]
        rfl
      · unfold pget
        rw [pfind_append_of_not_mem p _ .issuer hiss]
        rfl
      · rw [hkid _ rfl]
        exact hpub
      · intro hv
        exact ⟨halg, rfl, hpair⟩
      · refine Or.inr ⟨now, ?_⟩
        rw [pfind_append_of_not_mem p _ .issuedAt hiat]
        rfl
      · refine Or.inl ?_
        rw [pfind_append_of_not_mem p _ .expirationTime hexp]
        rfl
      · refine ⟨av, ?_, havshape⟩
        rw [pfind_append_of_not_mem p _ .audience haud]
        rfl
      · rw [pget_append_left p _ .token (pmem_token_of_known p ht)]
        exact ht
      · rw [pget_append_left p _ .sessionId (pmem_of_truthy p _ hsid)]
        exact hsid
      · rw [pget_append_left p _ .userId (pmem_of_truthy p _ huid)]
        exact huid

/-- Closed evaluation of `c4_encode_decode_round_trip`: a session payload
for session `"s1"`, user `"u1"`, email `"a@b.com"`, issued at time 1000
under `fixSettings` (1-hour session TTL), round-trips through encoding
and verified decoding into the input plus the four defaulted claims. -/
theorem c4_encode_decode_round_trip_witness :
    ∃ tok av,
      audience_resolved fixSettings
        (pget (create_session_payload (.str "s1") (.str "u1") "a@b.com")
          .token) = some av
      ∧ encode_jwt_token fixSettings fixEnv 1000
          (create_session_payload (.str "s1") (.str "u1") "a@b.com") =
          .ok (tok, create_session_payload (.str "s1") (.str "u1") "a@b.com"
            ++ ((ClaimKey.issuer, Value.str "me")
              :: (ClaimKey.audience, av)
              :: ((match expiration_ttl fixSettings
                     (pget (create_session_payload (.str "s1") (.str "u1")
                       "a@b.com") .token) with
                   | some d => [(ClaimKey.expirationTime, Value.time (1000 + d))]
                   | _ => ([] : Payload))
                  ++ [(ClaimKey.issuedAt, Value.time 1000)])))
      ∧ tok.body = create_session_payload (.str "s1") (.str "u1") "a@b.com"
          ++ ((ClaimKey.issuer, Value.str "me")
            :: (ClaimKey.audience, av)
            :: ((match expiration_ttl fixSettings
                   (pget (create_session_payload (.str "s1") (.str "u1")
                     "a@b.com") .token) with
                 | some d => [(ClaimKey.expirationTime, Value.time (1000 + d))]
                 | _ => ([] : Payload))
                ++ [(ClaimKey.issuedAt, Value.time 1000)]))
      ∧ decode_jwt_token fixSettings fixEnv 1000 tok =
          .ok (create_session_payload (.str "s1") (.str "u1") "a@b.com"
            ++ ((ClaimKey.issuer, Value.str "me")
              :: (ClaimKey.audience, av)
              :: ((match expiration_ttl fixSettings
                     (pget (create_session_payload (.str "s1") (.str "u1")
                       "a@b.com") .token) with
                   | some d => [(ClaimKey.expirationTime, Value.time (1000 + d))]
                   | _ => ([] : Payload))
                  ++ [(ClaimKey.issuedAt, Value.time 1000)]))) :=
  c4_encode_decode_round_trip fixSettings fixEnv 1000
    (create_session_payload (.str "s1") (.str "u1") "a@b.com")
    "me" "PRIVKEY" "me-key" "PUBKEY" "me-key"
    (Or.inl (by decide)) (by decide) (by decide) (by decide) (by decide)
    (by decide) (by decide) (by decide) (Or.inl (by decide)) (by decide)
    (by decide) (by decide) (by decide)
    (by
      intro a h
      rw [show audience_resolved fixSettings
          (pget (create_session_payload (.str "s1") (.str "u1") "a@b.com")
            .token) = some (Value.strList ["me"]) from by decide] at h
      exact Or.inr ⟨["me"], (Option.some.inj h).symm, by decide⟩)
    (by
      intro d h
      rw [show expiration_ttl fixSettings
          (pget (create_session_payload (.str "s1") (.str "u1") "a@b.com")
            .token) = some 3600 from by decide] at h
      have hd := Option.some.inj h
      rw [← hd]
      decide)

end SSO
